import Mathlib

/-!
# answersuck-backend: the account credential lifecycle

A shallow embedding of `internal/service/account.go`, of `domain.NewSession`
(`internal/domain/session.go`), of the generated request validation
(`rpc/peasant/v1/password_service.pb.validate.go`), of the `CreateAccount` handler
(`internal/user/handler/connect/account/v1/create_account.go`), of
`answer.NewListParams` (`internal/domain/answer/entity.go`) and of
`email.Letter.Validate` (`pkg/email/letter.go`).  The service is a thin
orchestration layer over collaborators (store, token issuer, password hasher,
mailer, block list, clock).  Every collaborator is a function that threads an
abstract state `σ`; the service operations thread a `World σ`, which holds the
collaborator state, the sequence of collaborator calls made so far and the
goroutines that were started.

Conventions
* a Go `error` is `Option Error` (`none` is `nil`), a Go `(T, error)` is
  `Except Error T`;
* `fmt.Errorf("ctx: %w", err)` is `Error.wrap "ctx" err`, `errors.Is` is `Error.Is`;
* `time.Time` is an integer count of nanoseconds on the wall clock and
  `time.Duration` an integer count of nanoseconds; the times the service handles
  are database timestamps and clock readings, far from the range limits of
  `time.Time`, so `Add` is plain addition;
* `context.Context` carries no data the service reads and is left out.
-/

namespace Answersuck

/-! ## Errors -/

/-- Go error values: a sentinel made by `errors.New`, identified by its variable
name, or a wrapper made by `fmt.Errorf` with the `%w` verb. -/
inductive Error where
  | sentinel (name : String)
  | wrap (context : String) (inner : Error)
  deriving DecidableEq, Repr

/-- The function `errors.Is`: the target is the error itself or is reached by
unwrapping. -/
def Error.Is : Error → Error → Bool
  | .sentinel n, target => decide (Error.sentinel n = target)
  | .wrap c inner, target => decide (Error.wrap c inner = target) || inner.Is target

def ErrAccountForbiddenUsername : Error := .sentinel "domain.ErrAccountForbiddenUsername"
def ErrAccountResetPasswordTokenExpired : Error :=
  .sentinel "domain.ErrAccountResetPasswordTokenExpired"
def ErrAccountAlreadyVerified : Error := .sentinel "domain.ErrAccountAlreadyVerified"
def ErrAccountAlreadyExist : Error := .sentinel "domain.ErrAccountAlreadyExist"
def ErrNotFound : Error := .sentinel "account.ErrNotFound"
def ErrPasswordTokenNotFound : Error := .sentinel "account.ErrPasswordTokenNotFound"
def ErrPasswordTokenAlreadyExist : Error := .sentinel "account.ErrPasswordTokenAlreadyExist"

/-! ## Time -/

abbrev Time := Int
abbrev Duration := Int

/-- The method `time.Time.Add`. -/
def Time.Add (t : Time) (d : Duration) : Time := t + d

/-- The method `time.Time.After`: `t.After(u)` reports whether `t` is after `u`. -/
def Time.After (t u : Time) : Bool := decide (u < t)

/-! ## Data -/

/-- The record `domain.Account`; the defaults are Go's zero values. -/
structure Account where
  Id : String := ""
  Email : String := ""
  Username : String := ""
  Password : String := ""
  PasswordHash : String := ""
  AvatarURL : String := ""
  VerificationCode : String := ""
  Verified : Bool := false
  Archived : Bool := false
  CreatedAt : Time := 0
  UpdatedAt : Time := 0
  deriving DecidableEq, Repr

/-- The reset token record returned by `repo.FindPasswordResetToken`. -/
structure PasswordResetToken where
  Token : String := ""
  AccountId : String := ""
  CreatedAt : Time := 0
  deriving DecidableEq, Repr

/-- The record `dto.AccountUpdatePassword`. -/
structure AccountUpdatePassword where
  Token : String := ""
  AccountId : String := ""
  PasswordHash : String := ""
  UpdatedAt : Time := 0
  deriving DecidableEq, Repr

/-- The verification record returned by `repo.FindVerification`. -/
structure Verification where
  Email : String := ""
  Code : String := ""
  Verified : Bool := false
  deriving DecidableEq, Repr

def verificationCodeLength : Nat := 64
def passwordResetTokenLength : Nat := 64

/-! ## Collaborators and the world -/

/-- One call to a collaborator, with its arguments. -/
inductive Call where
  | blockListFind (username : String)
  | hashPassword (password : String)
  | newUnique (length : Nat)
  | timeNow
  | repoCreate (a : Account)
  | repoFindById (aid : String)
  | repoFindByEmail (email : String)
  | repoFindByUsername (username : String)
  | repoArchive (aid : String) (archived : Bool) (updatedAt : Time)
  | repoFindVerification (aid : String)
  | repoVerify (code : String) (verified : Bool) (updatedAt : Time)
  | repoInsertPasswordResetToken (email token : String)
  | repoFindPasswordResetToken (token : String)
  | repoUpdatePasswordWithToken (dto : AccountUpdatePassword)
  | sessionTerminate (sid : String)
  | sendAccountVerificationMail (email code : String)
  | sendAccountPasswordResetMail (email token : String)
  deriving DecidableEq, Repr

/-- The body of a `go func() { _ = ... }()` statement: a mail send whose error is
dropped. -/
inductive Goroutine where
  | sendAccountVerificationMail (email code : String)
  deriving DecidableEq, Repr

/-- The fields of `accountService` and the package-level functions it calls.
Each effectful collaborator maps the state before the call to its result and the
state after. -/
structure Deps (σ : Type) where
  /-- The setting `cfg.Password.ResetTokenExp`. -/
  cfgPasswordResetTokenExp : Duration
  /-- Whether `mail.ParseAddress` returns a nil error. -/
  mailParseAddress : String → Bool
  /-- The avatar reference that `SetDiceBearAvatar` stores. -/
  diceBearAvatar : Account → String
  blockListFind : String → σ → Bool × σ
  /-- The password hasher behind `GeneratePasswordHash`. -/
  hashPassword : String → σ → Except Error String × σ
  /-- The function `strings.NewUnique`. -/
  newUnique : Nat → σ → Except Error String × σ
  /-- The function `time.Now`. -/
  timeNow : σ → Time × σ
  repoCreate : Account → σ → Except Error Account × σ
  repoFindById : String → σ → Except Error Account × σ
  repoFindByEmail : String → σ → Except Error Account × σ
  repoFindByUsername : String → σ → Except Error Account × σ
  repoArchive : String → Bool → Time → σ → Option Error × σ
  repoFindVerification : String → σ → Except Error Verification × σ
  repoVerify : String → Bool → Time → σ → Option Error × σ
  repoInsertPasswordResetToken : String → String → σ → Option Error × σ
  repoFindPasswordResetToken : String → σ → Except Error PasswordResetToken × σ
  repoUpdatePasswordWithToken : AccountUpdatePassword → σ → Option Error × σ
  sessionTerminate : String → σ → Option Error × σ
  sendAccountVerificationMail : String → String → σ → Option Error × σ
  sendAccountPasswordResetMail : String → String → σ → Option Error × σ

/-- The collaborator state, the calls made so far (oldest first) and the
goroutines started so far. -/
structure World (σ : Type) where
  st : σ
  trace : List Call := []
  spawned : List Goroutine := []
  deriving DecidableEq, Repr

variable {σ : Type}

/-- Perform one collaborator call: record it and move to the state it leaves. -/
def invoke {α : Type} (c : Call) (f : σ → α × σ) (w : World σ) : α × World σ :=
  ((f w.st).1, { w with st := (f w.st).2, trace := w.trace ++ [c] })

/-- The statement `go func() { ... }()`: the goroutine is started, not awaited. -/
def spawn (g : Goroutine) (w : World σ) : World σ :=
  { w with spawned := w.spawned ++ [g] }

/-- Run a started goroutine to completion; its error is assigned to `_`. -/
def Goroutine.run (d : Deps σ) : Goroutine → World σ → World σ
  | .sendAccountVerificationMail email code, w =>
    (invoke (.sendAccountVerificationMail email code)
      (d.sendAccountVerificationMail email code) w).2

/-- The calls a run added to the trace of the world it started from. -/
def callsSince (w w1 : World σ) : List Call := w1.trace.drop w.trace.length

/-! ## Methods of `domain.Account` used by the service -/

/-- Modelled from the spec: `domain.Account.GeneratePasswordHash` is not among the
sources.  "Derives a password hash (one-way, salted) from the plaintext": the
hasher is applied to the account's `Password`; on success the result is stored in
`PasswordHash`, on failure the hasher's error is returned. -/
def Account.GeneratePasswordHash (d : Deps σ) (a : Account) (w : World σ) :
    (Option Error × Account) × World σ :=
  match invoke (.hashPassword a.Password) (d.hashPassword a.Password) w with
  | (.error err, w1) => ((some err, a), w1)
  | (.ok h, w1) => ((none, { a with PasswordHash := h }), w1)

/-- Modelled from the spec: `domain.Account.SetDiceBearAvatar` is not among the
sources.  "Generates ... a default avatar reference": the avatar field is set. -/
def Account.SetDiceBearAvatar (d : Deps σ) (a : Account) : Account :=
  { a with AvatarURL := d.diceBearAvatar a }

/-- Modelled from the spec: `domain.Account.GenerateVerificationCode` is not among
the sources.  "Generates a verification code (Token Issuer, fixed length)": a
string of the given length is requested from `strings.NewUnique` and stored in
`VerificationCode`; an issuer failure is returned. -/
def Account.GenerateVerificationCode (d : Deps σ) (length : Nat) (a : Account)
    (w : World σ) : (Option Error × Account) × World σ :=
  match invoke (.newUnique length) (d.newUnique length) w with
  | (.error err, w1) => ((some err, a), w1)
  | (.ok code, w1) => ((none, { a with VerificationCode := code }), w1)

/-! ## `accountService` (internal/service/account.go) -/

/-- The method `accountService.Create`. -/
def accountService.Create (d : Deps σ) (a : Account) (w : World σ) :
    Except Error Account × World σ :=
  match invoke (.blockListFind a.Username) (d.blockListFind a.Username) w with
  | (true, w1) =>
    (.error (.wrap "accountService - Create - s.blockList.Find" ErrAccountForbiddenUsername), w1)
  | (false, w1) =>
    match Account.GeneratePasswordHash d a w1 with
    | ((some err, _), w2) =>
      (.error (.wrap "accountService - Create - acc.GeneratePasswordHash" err), w2)
    | ((none, a1), w2) =>
      match Account.GenerateVerificationCode d verificationCodeLength
          (Account.SetDiceBearAvatar d a1) w2 with
      | ((some err, _), w3) =>
        (.error (.wrap "accountService - Create - a.GenerateVerificationCode" err), w3)
      | ((none, a2), w3) =>
        match invoke (.repoCreate a2) (d.repoCreate a2) w3 with
        | (.error err, w4) =>
          (.error (.wrap "accountService - Create - s.repo.Create" err), w4)
        | (.ok a3, w4) =>
          (.ok a3, spawn (.sendAccountVerificationMail a3.Email a3.VerificationCode) w4)

/-- The method `accountService.GetById`. -/
def accountService.GetById (d : Deps σ) (aid : String) (w : World σ) :
    Except Error Account × World σ :=
  match invoke (.repoFindById aid) (d.repoFindById aid) w with
  | (.error err, w1) => (.error (.wrap "accountService - GetByID - s.repo.FindByID" err), w1)
  | (.ok acc, w1) => (.ok acc, w1)

/-- The method `accountService.GetByEmail`. -/
def accountService.GetByEmail (d : Deps σ) (email : String) (w : World σ) :
    Except Error Account × World σ :=
  match invoke (.repoFindByEmail email) (d.repoFindByEmail email) w with
  | (.error err, w1) =>
    (.error (.wrap "accountService - GetByEmail - s.repo.FindByEmail" err), w1)
  | (.ok acc, w1) => (.ok acc, w1)

/-- The method `accountService.GetByUsername`. -/
def accountService.GetByUsername (d : Deps σ) (username : String) (w : World σ) :
    Except Error Account × World σ :=
  match invoke (.repoFindByUsername username) (d.repoFindByUsername username) w with
  | (.error err, w1) =>
    (.error (.wrap "accountService - GetByUsername - s.repo.FindByUsername" err), w1)
  | (.ok acc, w1) => (.ok acc, w1)

/-- The method `accountService.Delete`. -/
def accountService.Delete (d : Deps σ) (aid sid : String) (w : World σ) :
    Option Error × World σ :=
  match invoke .timeNow d.timeNow w with
  | (now, w1) =>
    match invoke (.repoArchive aid true now) (d.repoArchive aid true now) w1 with
    | (some err, w2) => (some (.wrap "accountService - Archive - s.repo.Archive" err), w2)
    | (none, w2) =>
      match invoke (.sessionTerminate sid) (d.sessionTerminate sid) w2 with
      | (some err, w3) =>
        (some (.wrap "accountService - Archive - s.session.TerminateAll" err), w3)
      | (none, w3) => (none, w3)

/-- The method `accountService.RequestVerification`. -/
def accountService.RequestVerification (d : Deps σ) (aid : String) (w : World σ) :
    Option Error × World σ :=
  match invoke (.repoFindVerification aid) (d.repoFindVerification aid) w with
  | (.error err, w1) =>
    (some (.wrap "accountService - RequestVerification - s.repo.FindById" err), w1)
  | (.ok a, w1) =>
    if a.Verified then (some (.wrap "accountService" ErrAccountAlreadyVerified), w1)
    else (none, spawn (.sendAccountVerificationMail a.Email a.Code) w1)

/-- The method `accountService.Verify`. -/
def accountService.Verify (d : Deps σ) (code : String) (verified : Bool) (w : World σ) :
    Option Error × World σ :=
  match invoke .timeNow d.timeNow w with
  | (now, w1) =>
    match invoke (.repoVerify code verified now) (d.repoVerify code verified now) w1 with
    | (some err, w2) => (some (.wrap "accountService - Verify - s.repo.Verify" err), w2)
    | (none, w2) => (none, w2)

/-- The first statement of `RequestPasswordReset`: `email` starts as `login`; when
`mail.ParseAddress(login)` fails the login is looked up as a username and `email`
becomes the found account's email. -/
def accountService.RequestPasswordReset.resolve (d : Deps σ) (login : String)
    (w : World σ) : Except Error String × World σ :=
  if d.mailParseAddress login then (.ok login, w)
  else
    match accountService.GetByUsername d login w with
    | (.error err, w1) =>
      (.error (.wrap "accountService - RequestPasswordReset - s.GetByUsername" err), w1)
    | (.ok a, w1) => (.ok a.Email, w1)

/-- The method `accountService.RequestPasswordReset`. -/
def accountService.RequestPasswordReset (d : Deps σ) (login : String) (w : World σ) :
    Option Error × World σ :=
  match accountService.RequestPasswordReset.resolve d login w with
  | (.error err, w1) => (some err, w1)
  | (.ok email, w1) =>
    match invoke (.newUnique passwordResetTokenLength)
        (d.newUnique passwordResetTokenLength) w1 with
    | (.error err, w2) =>
      (some (.wrap "accountService - RequestPasswordReset - strings.NewUnique" err), w2)
    | (.ok t, w2) =>
      match invoke (.repoInsertPasswordResetToken email t)
          (d.repoInsertPasswordResetToken email t) w2 with
      | (some err, w3) =>
        (some (.wrap
          "accountService - RequestPasswordReset - s.repo.InsertPasswordResetToken" err), w3)
      | (none, w3) =>
        match invoke (.sendAccountPasswordResetMail email t)
            (d.sendAccountPasswordResetMail email t) w3 with
        | (some err, w4) =>
          (some (.wrap
            "accountService - RequestPasswordReset - s.email.SendAccountPasswordResetMail"
            err), w4)
        | (none, w4) => (none, w4)

/-- The method `accountService.PasswordReset`. -/
def accountService.PasswordReset (d : Deps σ) (token password : String) (w : World σ) :
    Option Error × World σ :=
  match invoke (.repoFindPasswordResetToken token) (d.repoFindPasswordResetToken token) w with
  | (.error err, w1) =>
    (some (.wrap "accountService - PasswordReset - s.repo.FindPasswordResetToken" err), w1)
  | (.ok t, w1) =>
    match invoke .timeNow d.timeNow w1 with
    | (now, w2) =>
      if Time.After now (Time.Add t.CreatedAt d.cfgPasswordResetTokenExp) then
        (some (.wrap "accountService - PasswordReset" ErrAccountResetPasswordTokenExpired), w2)
      else
        match Account.GeneratePasswordHash d { Password := password } w2 with
        | ((some err, _), w3) =>
          (some (.wrap "accountService - PasswordReset - a.GeneratePassword" err), w3)
        | ((none, a), w3) =>
          match invoke .timeNow d.timeNow w3 with
          | (updatedAt, w4) =>
            match invoke
                (.repoUpdatePasswordWithToken
                  { Token := t.Token, AccountId := t.AccountId,
                    PasswordHash := a.PasswordHash, UpdatedAt := updatedAt })
                (d.repoUpdatePasswordWithToken
                  { Token := t.Token, AccountId := t.AccountId,
                    PasswordHash := a.PasswordHash, UpdatedAt := updatedAt }) w4 with
            | (some err, w5) =>
              (some (.wrap
                "accountService - PasswordReset - s.repo.UpdatePasswordWithToken" err), w5)
            | (none, w5) => (none, w5)

/-! ## An in-memory set of collaborators

The store (`internal/adapter/repository/psql`), the token issuer
(`pkg/strings`), the hasher, the block list and the mailer are not among the
sources.  The theorems below hold for every `Deps σ`; this concrete set, written
from the specification of the Credential Store and its repository tests, gives
them inputs on which every definition can be evaluated. -/

/-- Modelled from the spec: the state of the Credential Store (accounts with their
verification codes, reset tokens, sessions) together with the state of the other
collaborators (block list, issuer supply, clock, hasher and mailer health, sent
letters). -/
structure MemState where
  accounts : List Account := []
  passwordTokens : List PasswordResetToken := []
  sessions : List (String × String) := []
  forbidden : List String := []
  uniques : List String := []
  clock : Time := 0
  hasherDown : Bool := false
  mailerDown : Bool := false
  outbox : List (String × String) := []
  deriving DecidableEq, Repr

/-- Modelled from the spec: the lookups of the Credential Store,
"find-by-id/email/nickname (excluding archived)". -/
def MemState.lookup (s : MemState) (p : Account → Bool) : Option Account :=
  s.accounts.find? (fun a => p a && !a.Archived)

/-- Modelled from the spec: the forbidden-name checker, `Find(name) -> bool`. -/
def memBlockListFind (username : String) (s : MemState) : Bool × MemState :=
  (decide (username ∈ s.forbidden), s)

/-- Modelled from the spec: the password hasher, a one-way hash that can fail. -/
def memHashPassword (password : String) (s : MemState) : Except Error String × MemState :=
  if s.hasherDown then (.error (.sentinel "hasher: unavailable"), s)
  else (.ok ("hash(" ++ password ++ ")"), s)

/-- Modelled from the spec: the Token Issuer; it hands out the next string of its
supply and fails when the random source gives nothing. -/
def memNewUnique (_length : Nat) (s : MemState) : Except Error String × MemState :=
  match s.uniques with
  | [] => (.error (.sentinel "rand: no entropy"), s)
  | u :: rest => (.ok u, { s with uniques := rest })

/-- Modelled from the spec: the Clock, `now()`; every reading advances it. -/
def memTimeNow (s : MemState) : Time × MemState :=
  (s.clock, { s with clock := s.clock + 1 })

/-- Modelled from the spec: insert-account-with-code, "if email or nickname already
exists, fails with `AlreadyExists` and nothing is written"; archived accounts
still occupy their email and nickname. -/
def memRepoCreate (a : Account) (s : MemState) : Except Error Account × MemState :=
  if s.accounts.any (fun b => b.Email = a.Email || b.Username = a.Username) then
    (.error ErrAccountAlreadyExist, s)
  else
    (.ok { a with Id := "id:" ++ a.Email },
      { s with accounts := s.accounts ++ [{ a with Id := "id:" ++ a.Email }] })

/-- Modelled from the spec: find-by-id, failing `NotFound`. -/
def memRepoFindById (aid : String) (s : MemState) : Except Error Account × MemState :=
  match s.lookup (fun a => a.Id = aid) with
  | some a => (.ok a, s)
  | none => (.error ErrNotFound, s)

/-- Modelled from the spec: find-by-email, failing `NotFound`. -/
def memRepoFindByEmail (email : String) (s : MemState) : Except Error Account × MemState :=
  match s.lookup (fun a => a.Email = email) with
  | some a => (.ok a, s)
  | none => (.error ErrNotFound, s)

/-- Modelled from the spec: find-by-nickname, failing `NotFound`. -/
def memRepoFindByUsername (username : String) (s : MemState) :
    Except Error Account × MemState :=
  match s.lookup (fun a => a.Username = username) with
  | some a => (.ok a, s)
  | none => (.error ErrNotFound, s)

/-- Modelled from the spec: archive, which sets the archived flag and
`updated_at` of the account. -/
def memRepoArchive (aid : String) (archived : Bool) (updatedAt : Time) (s : MemState) :
    Option Error × MemState :=
  match s.lookup (fun a => a.Id = aid) with
  | none => (some ErrNotFound, s)
  | some _ =>
    (none, { s with accounts := s.accounts.map (fun a =>
      if a.Id = aid then { a with Archived := archived, UpdatedAt := updatedAt } else a) })

/-- Modelled from the spec: the pending verification record of an account. -/
def memRepoFindVerification (aid : String) (s : MemState) :
    Except Error Verification × MemState :=
  match s.lookup (fun a => a.Id = aid) with
  | some a => (.ok { Email := a.Email, Code := a.VerificationCode, Verified := a.Verified }, s)
  | none => (.error ErrNotFound, s)

/-- Modelled from the spec: verify-by-code, which locates the account owning the
code and sets its verified flag and `updated_at` together. -/
def memRepoVerify (code : String) (verified : Bool) (updatedAt : Time) (s : MemState) :
    Option Error × MemState :=
  match s.lookup (fun a => a.VerificationCode = code) with
  | none => (some ErrNotFound, s)
  | some _ =>
    (none, { s with accounts := s.accounts.map (fun a =>
      if a.VerificationCode = code then
        { a with Verified := verified, UpdatedAt := updatedAt } else a) })

/-- Modelled from the spec: insert-reset-token-if-absent.  The email must belong
to an account (`NotFound` otherwise, as in `TestSavePasswordToken`), and "issuance
fails if one already exists for that account (no overwrite, no silent refresh)". -/
def memRepoInsertPasswordResetToken (email token : String) (s : MemState) :
    Option Error × MemState :=
  match s.lookup (fun a => a.Email = email) with
  | none => (some ErrNotFound, s)
  | some a =>
    if s.passwordTokens.any (fun t => t.AccountId = a.Id) then
      (some ErrPasswordTokenAlreadyExist, s)
    else
      (none, { s with passwordTokens := s.passwordTokens ++
        [{ Token := token, AccountId := a.Id, CreatedAt := s.clock }] })

/-- Modelled from the spec: find-reset-token, failing `PasswordTokenNotFound` as in
`TestFindPasswordToken`. -/
def memRepoFindPasswordResetToken (token : String) (s : MemState) :
    Except Error PasswordResetToken × MemState :=
  match s.passwordTokens.find? (fun t => t.Token = token) with
  | some t => (.ok t, s)
  | none => (.error ErrPasswordTokenNotFound, s)

/-- Modelled from the spec: update-password-and-invalidate-token, "both effects
happen together or neither does". -/
def memRepoUpdatePasswordWithToken (dto : AccountUpdatePassword) (s : MemState) :
    Option Error × MemState :=
  if s.passwordTokens.any (fun t => t.Token = dto.Token && t.AccountId = dto.AccountId) then
    (none, { s with
      accounts := s.accounts.map (fun a =>
        if a.Id = dto.AccountId then
          { a with PasswordHash := dto.PasswordHash, UpdatedAt := dto.UpdatedAt } else a),
      passwordTokens := s.passwordTokens.filter (fun t => !(t.Token = dto.Token)) })
  else (some ErrPasswordTokenNotFound, s)

/-- Modelled from the spec: `Terminate(sessionId)` deletes one session. -/
def memSessionTerminate (sid : String) (s : MemState) : Option Error × MemState :=
  (none, { s with sessions := s.sessions.filter (fun x => !(x.1 = sid)) })

/-- Modelled from the spec: the Notification Sink; a send either fails or puts
the letter in the outbox. -/
def memSend (email payload : String) (s : MemState) : Option Error × MemState :=
  if s.mailerDown then (some (.sentinel "smtp: delivery failed"), s)
  else (none, { s with outbox := s.outbox ++ [(email, payload)] })

/-- Modelled from the spec: the in-memory collaborators as one `Deps`.
`mail.ParseAddress` is replaced by the test "contains an at sign", and the avatar
reference is derived from the username. -/
def memDeps (ttl : Duration) : Deps MemState where
  cfgPasswordResetTokenExp := ttl
  mailParseAddress := fun login => decide ('@' ∈ login.toList)
  diceBearAvatar := fun a => "avatar/" ++ a.Username
  blockListFind := memBlockListFind
  hashPassword := memHashPassword
  newUnique := memNewUnique
  timeNow := memTimeNow
  repoCreate := memRepoCreate
  repoFindById := memRepoFindById
  repoFindByEmail := memRepoFindByEmail
  repoFindByUsername := memRepoFindByUsername
  repoArchive := memRepoArchive
  repoFindVerification := memRepoFindVerification
  repoVerify := memRepoVerify
  repoInsertPasswordResetToken := memRepoInsertPasswordResetToken
  repoFindPasswordResetToken := memRepoFindPasswordResetToken
  repoUpdatePasswordWithToken := memRepoUpdatePasswordWithToken
  sessionTerminate := memSessionTerminate
  sendAccountVerificationMail := memSend
  sendAccountPasswordResetMail := memSend

/-- A store with the account `alice` and a reset token for it created at time 100,
read by a clock that shows 150. -/
def demoState : MemState where
  accounts := [{ Id := "id:a@x.com", Email := "a@x.com", Username := "alice",
                 PasswordHash := "hash(old)", VerificationCode := "code-1" }]
  passwordTokens := [{ Token := "tok-1", AccountId := "id:a@x.com", CreatedAt := 100 }]
  forbidden := ["admin"]
  uniques := ["tok-2", "tok-3"]
  clock := 150

/-- The store of `demoState` with no reset token and a token issuer whose random
source gives nothing. -/
def dryState : MemState :=
  { demoState with passwordTokens := [], uniques := [] }

/-- The store of `demoState` with no reset token and a mailer that fails. -/
def mailerDownState : MemState :=
  { demoState with passwordTokens := [], mailerDown := true }

/-- The store of `demoState` with no reset token. -/
def freshState : MemState :=
  { demoState with passwordTokens := [] }

/-! ## Reading results -/

/-- Whether a Go `error` is non-nil and `errors.Is(err, target)` holds. -/
def failsWith (r : Option Error) (target : Error) : Bool :=
  match r with
  | some e => e.Is target
  | none => false

/-- The `error` half of a Go `(T, error)` result. -/
def errorOf {α : Type} : Except Error α → Option Error
  | .error e => some e
  | .ok _ => none

/-- Whether a call is a send of the password-reset email. -/
def Call.isSendAccountPasswordResetMail : Call → Bool
  | .sendAccountPasswordResetMail _ _ => true
  | _ => false

/-- Whether a call is a store write to `UpdatePasswordWithToken`. -/
def Call.isUpdatePasswordWithToken : Call → Bool
  | .repoUpdatePasswordWithToken _ => true
  | _ => false

/-! ## Auxiliary definitions for the statements -/

/-- The calls made by the first statement of `RequestPasswordReset`. -/
def resolveCalls (d : Deps σ) (login : String) : List Call :=
  if d.mailParseAddress login then [] else [.repoFindByUsername login]

/-- The account `Create` hands to the store: the caller's account with the
password hash, the avatar reference and the verification code filled in. -/
def preparedAccount (d : Deps σ) (a : Account) (h code : String) : Account :=
  { Account.SetDiceBearAvatar d { a with PasswordHash := h } with VerificationCode := code }

/-- The account the in-memory store keeps for a new account `a`. -/
def memStored (ttl : Duration) (a : Account) (code : String) : Account :=
  { preparedAccount (memDeps ttl) a ("hash(" ++ a.Password ++ ")") code with
    Id := "id:" ++ a.Email }

/-! ## `domain.Session` (internal/domain/session.go) -/

def ErrSessionCannotBeTerminated : Error := .sentinel "domain.ErrSessionCannotBeTerminated"
def ErrSessionContextNotFound : Error := .sentinel "domain.ErrSessionContextNotFound"
def ErrSessionDeviceMismatch : Error := .sentinel "domain.ErrSessionDeviceMismatch"

/-- The record `domain.Session`. -/
structure Session where
  Id : String := ""
  AccountId : String := ""
  UserAgent : String := ""
  IP : String := ""
  MaxAge : Int := 0
  ExpiresAt : Int := 0
  CreatedAt : Time := 0
  deriving DecidableEq, Repr

/-- The constant `time.Second`, in nanoseconds. -/
def Second : Duration := 1000000000

/-- The method `time.Time.Unix`: the whole seconds elapsed since the epoch, rounded
towards minus infinity. -/
def Time.Unix (t : Time) : Int := t / Second

/-- The expression `int(expiration.Seconds())`.  `Seconds` returns the floating
point sum of `d / Second` and `(d % Second) / 1e9`, and the conversion truncates
towards zero.  For a whole number of seconds the second summand is zero and the
first is an integer below `2 ^ 53`, so the value is exactly `d / Second`; the
definition is used only for such durations. -/
def Duration.intSeconds (d : Duration) : Int := Int.tdiv d Second

/-- The function `domain.NewSession`.  The first argument is `netip.ParseAddr`,
reduced to its error (`none` when the address parses). -/
def NewSession (netipParseAddr : String → Option Error) (d : Deps σ)
    (aid ua ip : String) (expiration : Duration) (w : World σ) :
    Except Error Session × World σ :=
  match netipParseAddr ip with
  | some err => (.error (.wrap "netip.ParseAddr" err), w)
  | none =>
    match invoke (.newUnique 64) (d.newUnique 64) w with
    | (.error err, w1) => (.error err, w1)
    | (.ok sid, w1) =>
      match invoke .timeNow d.timeNow w1 with
      | (now, w2) =>
        (.ok { Id := sid, AccountId := aid, UserAgent := ua, IP := ip,
               MaxAge := Duration.intSeconds expiration,
               ExpiresAt := Time.Unix (Time.Add now expiration),
               CreatedAt := now }, w2)

/-- The groups of a character list between dots. -/
def splitDots : List Char → List (List Char)
  | [] => [[]]
  | c :: cs =>
    if c = '.' then [] :: splitDots cs
    else
      match splitDots cs with
      | [] => [[c]]
      | g :: gs => (c :: g) :: gs

/-- Whether a character list is a decimal number from 0 to 255 of one to three
digits. -/
def isOctet (g : List Char) : Bool :=
  decide (0 < g.length) && decide (g.length ≤ 3) &&
    g.all (fun c => decide ('0' ≤ c) && decide (c ≤ '9')) &&
    decide (g.foldl (fun n c => 10 * n + (c.toNat - 48)) 0 ≤ 255)

/-- A stand-in for `netip.ParseAddr` on the in-memory collaborators: it accepts the
dotted quads of IPv4 and rejects every other string. -/
def memParseAddr (ip : String) : Option Error :=
  if (splitDots ip.toList).length = 4 ∧ (splitDots ip.toList).all isOctet then none
  else some (.sentinel "netip: unable to parse IP")

/-! ## The error kinds of the specification -/

/-- The sentinels that stand for the error kinds the specification enumerates
(`AlreadyExists`, `NotFound`, `AlreadyVerified`, `ForbiddenIdentifier`,
`PasswordTokenAlreadyExist`, `ResetTokenExpired`, `DeviceMismatch`,
`CannotTerminateSelf`).  The kind `InvalidAddress` has no sentinel in the sources. -/
def enumeratedKinds : List Error :=
  [ErrAccountAlreadyExist, ErrNotFound, ErrPasswordTokenNotFound, ErrAccountAlreadyVerified,
    ErrAccountForbiddenUsername, ErrPasswordTokenAlreadyExist,
    ErrAccountResetPasswordTokenExpired, ErrSessionDeviceMismatch,
    ErrSessionCannotBeTerminated]

/-- The store of `demoState` with `alice` verified. -/
def verifiedState : MemState :=
  { demoState with
    accounts := [{ Id := "id:a@x.com", Email := "a@x.com", Username := "alice",
                   PasswordHash := "hash(old)", VerificationCode := "code-1",
                   Verified := true }] }

/-- The store of `demoState` with two sessions of `alice` and one of another
account. -/
def sessionsState : MemState :=
  { demoState with
    sessions := [("sid-1", "id:a@x.com"), ("sid-2", "id:a@x.com"), ("sid-3", "id:c@x.com")] }

/-- The uniqueness invariant of the Credential Store: the id, the email and the
nickname each identify one stored account. -/
def MemState.keysUnique (s : MemState) : Prop :=
  ∀ a ∈ s.accounts, ∀ b ∈ s.accounts,
    (a.Id = b.Id ∨ a.Email = b.Email ∨ a.Username = b.Username) → a = b

/-- A store with the live account `alice` and the archived account `carol`. -/
def archiveState : MemState :=
  { demoState with
    accounts := [{ Id := "id:a@x.com", Email := "a@x.com", Username := "alice",
                   PasswordHash := "hash(old)", VerificationCode := "code-1" },
                 { Id := "id:c@x.com", Email := "c@x.com", Username := "carol",
                   PasswordHash := "hash(c)", VerificationCode := "code-3",
                   Verified := true, Archived := true }] }

/-! ## `UpdatePasswordRequest` (rpc/peasant/v1/password_service.pb.validate.go)

Go strings are byte strings; the string fields of a protobuf message hold valid
UTF-8, which is what a Lean `String` is, and on valid UTF-8
`utf8.RuneCountInString` is the number of code points. -/

/-- The fields of the message `UpdatePasswordRequest` that the validation reads. -/
structure UpdatePasswordRequest where
  AccountId : String := ""
  OldPassword : String := ""
  NewPassword : String := ""
  deriving DecidableEq, Repr

/-- The record `UpdatePasswordRequestValidationError`. -/
structure UpdatePasswordRequestValidationError where
  field : String := ""
  reason : String := ""
  cause : Option Error := none
  key : Bool := false
  deriving DecidableEq, Repr

/-- The `error` values the validation returns: one
`UpdatePasswordRequestValidationError`, or the list
`UpdatePasswordRequestMultiError`. -/
inductive UpdatePasswordRequestError where
  | validationError (e : UpdatePasswordRequestValidationError)
  | multiError (errors : List UpdatePasswordRequestValidationError)
  deriving DecidableEq, Repr

/-- The character class `[0-9a-fA-F]`. -/
def isHexDigit (c : Char) : Bool :=
  (decide ('0' ≤ c) && decide (c ≤ '9')) || (decide ('a' ≤ c) && decide (c ≤ 'f')) ||
    (decide ('A' ≤ c) && decide (c ≤ 'F'))

/-- The pieces of the regular expressions this file uses: the class `[0-9a-fA-F]`
repeated exactly `n` times, or one literal character. -/
inductive RegexItem where
  | hex (n : Nat)
  | lit (c : Char)
  deriving DecidableEq, Repr

/-- Whether a text matches `^item item ... item$` from its first to its last
character (in Go, `$` without the multi-line flag matches only at the end of the
text). -/
def matchItems : List RegexItem → List Char → Bool
  | [], cs => cs.isEmpty
  | .lit c :: rest, cs =>
    match cs with
    | [] => false
    | x :: xs => decide (x = c) && matchItems rest xs
  | .hex n :: rest, cs =>
    decide ((cs.take n).length = n) && (cs.take n).all isHexDigit &&
      matchItems rest (cs.drop n)

/-- The pattern
`^[0-9a-fA-F]{8}-[0-9a-fA-F]{4}-[0-9a-fA-F]{4}-[0-9a-fA-F]{4}-[0-9a-fA-F]{12}$`. -/
def _password_service_uuidPattern : List RegexItem :=
  [.hex 8, .lit '-', .hex 4, .lit '-', .hex 4, .lit '-', .hex 4, .lit '-', .hex 12]

/-- The function `utf8.RuneCountInString` on valid UTF-8. -/
def RuneCountInString (s : String) : Nat := s.length

/-- The method `UpdatePasswordRequest._validateUuid`. -/
def UpdatePasswordRequest._validateUuid (uuid : String) : Option Error :=
  if matchItems _password_service_uuidPattern uuid.toList then none
  else some (.sentinel "invalid uuid format")

/-- The method `UpdatePasswordRequest.validate`; `none` as message is the nil
pointer.  Each of the three checks, when violated, returns its error at once
unless `all` is set, and otherwise appends it to `errors`. -/
def UpdatePasswordRequest.validate (m : Option UpdatePasswordRequest) (all : Bool) :
    Option UpdatePasswordRequestError :=
  match m with
  | none => none
  | some m =>
    let errAccountId : UpdatePasswordRequestValidationError :=
      { field := "AccountId", reason := "value must be a valid UUID",
        cause := UpdatePasswordRequest._validateUuid m.AccountId }
    let errOldPassword : UpdatePasswordRequestValidationError :=
      { field := "OldPassword", reason := "value length must be at most 64 runes" }
    let errNewPassword : UpdatePasswordRequestValidationError :=
      { field := "NewPassword",
        reason := "value length must be between 8 and 64 runes, inclusive" }
    let badAccountId := (UpdatePasswordRequest._validateUuid m.AccountId).isSome
    let badOldPassword := decide (RuneCountInString m.OldPassword > 64)
    let badNewPassword := decide (RuneCountInString m.NewPassword < 8 ∨
      RuneCountInString m.NewPassword > 64)
    if badAccountId && !all then some (.validationError errAccountId)
    else
      let errors1 := if badAccountId then [errAccountId] else []
      if badOldPassword && !all then some (.validationError errOldPassword)
      else
        let errors2 := if badOldPassword then errors1 ++ [errOldPassword] else errors1
        if badNewPassword && !all then some (.validationError errNewPassword)
        else
          let errors3 := if badNewPassword then errors2 ++ [errNewPassword] else errors2
          if errors3.length > 0 then some (.multiError errors3) else none

/-- The method `UpdatePasswordRequest.Validate`. -/
def UpdatePasswordRequest.Validate (m : Option UpdatePasswordRequest) :
    Option UpdatePasswordRequestError :=
  UpdatePasswordRequest.validate m false

/-- The method `UpdatePasswordRequest.ValidateAll`. -/
def UpdatePasswordRequest.ValidateAll (m : Option UpdatePasswordRequest) :
    Option UpdatePasswordRequestError :=
  UpdatePasswordRequest.validate m true

/-- The UUID shape in the words of the specification: five groups of 8, 4, 4, 4
and 12 hexadecimal digits, separated by hyphens. -/
def isUUIDShape (s : String) : Prop :=
  ∃ g1 g2 g3 g4 g5 : List Char,
    s.toList = g1 ++ '-' :: (g2 ++ '-' :: (g3 ++ '-' :: (g4 ++ '-' :: g5)))
      ∧ g1.length = 8 ∧ g2.length = 4 ∧ g3.length = 4 ∧ g4.length = 4 ∧ g5.length = 12
      ∧ (∀ c ∈ g1, isHexDigit c = true) ∧ (∀ c ∈ g2, isHexDigit c = true)
      ∧ (∀ c ∈ g3, isHexDigit c = true) ∧ (∀ c ∈ g4, isHexDigit c = true)
      ∧ (∀ c ∈ g5, isHexDigit c = true)

/-- A password of 33 two-byte characters: 33 runes, 66 bytes. -/
def twoBytePassword : String := String.mk (List.replicate 33 'é')

/-- The violated rules of an `UpdatePasswordRequest` in the words of the
specification: one entry per field whose rule is broken, in the order `AccountId`,
`OldPassword`, `NewPassword`. -/
def UpdatePasswordRequest.violatedRules (m : UpdatePasswordRequest) :
    List UpdatePasswordRequestValidationError :=
  (if matchItems _password_service_uuidPattern m.AccountId.toList then []
    else [{ field := "AccountId", reason := "value must be a valid UUID",
            cause := some (.sentinel "invalid uuid format") }]) ++
  (if RuneCountInString m.OldPassword ≤ 64 then []
    else [{ field := "OldPassword", reason := "value length must be at most 64 runes" }]) ++
  (if 8 ≤ RuneCountInString m.NewPassword ∧ RuneCountInString m.NewPassword ≤ 64 then []
    else [{ field := "NewPassword",
            reason := "value length must be between 8 and 64 runes, inclusive" }])

/-! ## `ResetPasswordRequest` and `SetPasswordRequest`
(rpc/peasant/v1/password_service.pb.validate.go) -/

/-- The field of the message `ResetPasswordRequest`. -/
structure ResetPasswordRequest where
  EmailOrUsername : String := ""
  deriving DecidableEq, Repr

/-- The fields of the message `SetPasswordRequest`. -/
structure SetPasswordRequest where
  Token : String := ""
  Password : String := ""
  deriving DecidableEq, Repr

/-- The method `ResetPasswordRequest.validate`; a non-nil result is the list
`ResetPasswordRequestMultiError`.  There is no validation rule for
`EmailOrUsername`, so `errors` stays empty. -/
def ResetPasswordRequest.validate (m : Option ResetPasswordRequest) (_all : Bool) :
    Option (List Error) :=
  match m with
  | none => none
  | some _ =>
    let errors : List Error := []
    if errors.length > 0 then some errors else none

/-- The method `ResetPasswordRequest.Validate`. -/
def ResetPasswordRequest.Validate (m : Option ResetPasswordRequest) : Option (List Error) :=
  ResetPasswordRequest.validate m false

/-- The method `ResetPasswordRequest.ValidateAll`. -/
def ResetPasswordRequest.ValidateAll (m : Option ResetPasswordRequest) :
    Option (List Error) :=
  ResetPasswordRequest.validate m true

/-- The method `SetPasswordRequest.validate`; a non-nil result is the list
`SetPasswordRequestMultiError`.  There is no validation rule for `Token` and none
for `Password`, so `errors` stays empty. -/
def SetPasswordRequest.validate (m : Option SetPasswordRequest) (_all : Bool) :
    Option (List Error) :=
  match m with
  | none => none
  | some _ =>
    let errors : List Error := []
    if errors.length > 0 then some errors else none

/-- The method `SetPasswordRequest.Validate`. -/
def SetPasswordRequest.Validate (m : Option SetPasswordRequest) : Option (List Error) :=
  SetPasswordRequest.validate m false

/-- The method `SetPasswordRequest.ValidateAll`. -/
def SetPasswordRequest.ValidateAll (m : Option SetPasswordRequest) : Option (List Error) :=
  SetPasswordRequest.validate m true

/-! ## The `CreateAccount` handler
(internal/user/handler/connect/account/v1/create_account.go) -/

/-- The codes of `connect` that the handler uses. -/
inductive connect.Code where
  | CodeInvalidArgument
  | CodeAlreadyExists
  | CodeInternal
  deriving DecidableEq, Repr

/-- The value `connect.NewError(code, err)`: a code and the underlying error. -/
structure connect.Error where
  code : connect.Code
  err : Answersuck.Error
  deriving DecidableEq, Repr

/-- The fields of `v1.CreateAccountRequest` that the handler reads. -/
structure CreateAccountRequest where
  Email : String := ""
  Username : String := ""
  Password : String := ""
  deriving DecidableEq, Repr

/-- The fields of the account returned by `s.service.Create` that the handler
reads. -/
structure user.Account where
  ID : String := ""
  Email : String := ""
  Username : String := ""
  EmailVerified : Bool := false
  CreatedAt : Time := 0
  deriving DecidableEq, Repr

/-- The message `timestamppb.Timestamp`. -/
structure Timestamp where
  Seconds : Int := 0
  Nanos : Int := 0
  deriving DecidableEq, Repr

/-- The function `timestamppb.New`: the Unix seconds of the time and its
nanoseconds within the second. -/
def timestamppb.New (t : Time) : Timestamp :=
  { Seconds := Time.Unix t, Nanos := t % Second }

/-- The message `v1.Account`. -/
structure v1.Account where
  Id : String := ""
  Email : String := ""
  Username : String := ""
  EmailVerified : Bool := false
  CreationTime : Timestamp := {}
  UpdateTime : Timestamp := {}
  deriving DecidableEq, Repr

/-- The message `v1.CreateAccountResponse`. -/
structure CreateAccountResponse where
  Account : v1.Account := {}
  deriving DecidableEq, Repr

/-- The collaborators of the handler: the generated `Validate` of the request
message, and `s.service.Create`, which threads the service state. -/
structure server (σ : Type) where
  msgValidate : CreateAccountRequest → Option Error
  serviceCreate : String → String → String → σ → Except Error user.Account × σ

/-- The service state, the calls to `s.service.Create` made so far (email,
username, password) and the errors passed to `s.log.Error` so far. -/
structure HandlerWorld (σ : Type) where
  st : σ
  created : List (String × String × String) := []
  logged : List Error := []
  deriving DecidableEq, Repr

/-- The method `server.CreateAccount`. -/
def server.CreateAccount (s : server σ) (r : CreateAccountRequest) (w : HandlerWorld σ) :
    Except connect.Error CreateAccountResponse × HandlerWorld σ :=
  match s.msgValidate r with
  | some err => (.error { code := .CodeInvalidArgument, err := err }, w)
  | none =>
    match s.serviceCreate r.Email r.Username r.Password w.st with
    | (.error err, st1) =>
      if err.Is ErrAccountAlreadyExist then
        (.error { code := .CodeAlreadyExists, err := ErrAccountAlreadyExist },
          { st := st1, created := w.created ++ [(r.Email, r.Username, r.Password)],
            logged := w.logged ++ [err] })
      else
        (.error { code := .CodeInternal, err := err },
          { st := st1, created := w.created ++ [(r.Email, r.Username, r.Password)],
            logged := w.logged ++ [err] })
    | (.ok a, st1) =>
      (.ok { Account :=
          { Id := a.ID, Email := a.Email, Username := a.Username,
            EmailVerified := a.EmailVerified,
            CreationTime := timestamppb.New a.CreatedAt,
            UpdateTime := timestamppb.New a.CreatedAt } },
        { st := st1, created := w.created ++ [(r.Email, r.Username, r.Password)],
          logged := w.logged })

/-- A stand-in for the collaborators of the handler: the request is valid when
its email contains an at sign, and the service keeps the list of emails it has
created accounts for. -/
def demoServer : server (List String) where
  msgValidate := fun r =>
    if '@' ∈ r.Email.toList then none else some (.sentinel "invalid CreateAccountRequest.Email")
  serviceCreate := fun email username _ taken =>
    if email ∈ taken then
      (.error (.wrap "accountService - Create - s.repo.Create" ErrAccountAlreadyExist), taken)
    else if username = "" then
      (.error (.wrap "accountService - Create" (.sentinel "argon2id: failure")), taken)
    else
      (.ok { ID := "id:" ++ email, Email := email, Username := username,
             CreatedAt := 1700000000500000000 }, taken ++ [email])

/-! ## `answer.NewListParams` (internal/domain/answer/entity.go)

The arguments are unsigned machine integers; the function only compares and
copies them, so they are natural numbers here. -/

/-- The record `answer.Filter`. -/
structure answer.Filter where
  Text : String := ""
  LanguageId : Nat := 0
  deriving DecidableEq, Repr

/-- The record `pagination.Params`, as `NewListParams` fills it. -/
structure pagination.Params where
  LastId : Nat := 0
  Limit : Nat := 0
  deriving DecidableEq, Repr

/-- The record `answer.ListParams`. -/
structure answer.ListParams where
  Pagination : pagination.Params := {}
  Filter : answer.Filter := {}
  deriving DecidableEq, Repr

def answer.maxLimit : Nat := 100

/-- The function `answer.NewListParams`.  The first argument is the constant
`pagination.DefaultLimit`, which is not among the sources. -/
def answer.NewListParams (DefaultLimit : Nat) (lastId limit : Nat) (f : answer.Filter) :
    answer.ListParams :=
  { Pagination :=
      { LastId := lastId,
        Limit := if limit = 0 ∨ limit > answer.maxLimit then DefaultLimit else limit },
    Filter := f }

/-! ## `email.Letter` (pkg/email/letter.go) -/

def ErrEmailEmptyTo : Error := .sentinel "email.ErrEmailEmptyTo"
def ErrEmailEmptySubject : Error := .sentinel "email.ErrEmailEmptySubject"
def ErrEmailEmptyMessage : Error := .sentinel "email.ErrEmailEmptyMessage"

/-- The record `email.Letter`. -/
structure Letter where
  To : String := ""
  Subject : String := ""
  Message : String := ""
  deriving DecidableEq, Repr

/-- The method `Letter.Validate`.  The first argument is `mail.ParseAddress`,
reduced to its error.  The receiver is a pointer, so the letter as the call leaves
it is returned next to the error. -/
def Letter.Validate (mailParseAddress : String → Option Error) (l : Letter) :
    Option Error × Letter :=
  if l.To = "" then (some ErrEmailEmptyTo, l)
  else
    match mailParseAddress l.To with
    | some err => (some err, l)
    | none =>
      if l.Subject = "" then (some ErrEmailEmptySubject, l)
      else if l.Message = "" then (some ErrEmailEmptyMessage, l)
      else (none, l)

/-- A stand-in for `mail.ParseAddress`: an address must contain an at sign. -/
def memMailParseAddress (address : String) : Option Error :=
  if '@' ∈ address.toList then none else some (.sentinel "mail: missing @ in address")

/-! ## Store writes -/

/-- Whether a call is a write to the store. -/
def Call.isStoreWrite : Call → Bool
  | .repoCreate _ => true
  | .repoArchive _ _ _ => true
  | .repoVerify _ _ _ => true
  | .repoInsertPasswordResetToken _ _ => true
  | .repoUpdatePasswordWithToken _ => true
  | _ => false

/-! ## Theorems -/

/-- C1: when the store finds the reset token, created at `c`, and the clock reads
`n`: if `n` is strictly after `c + ttl`, `PasswordReset` fails with
`ErrAccountResetPasswordTokenExpired`, its only collaborator calls are the lookup
and the clock reading, so `UpdatePasswordWithToken` is never called; if
`n ≤ c + ttl`, the result is not the rejection of the expiry check and the call
goes on to hash the password. -/
theorem PasswordReset_expiry_check (d : Deps σ) (w : World σ) (token password : String)
    (t : PasswordResetToken) (s1 s2 : σ) (n : Time)
    (hfind : d.repoFindPasswordResetToken token w.st = (.ok t, s1))
    (hnow : d.timeNow s1 = (n, s2)) :
    (t.CreatedAt + d.cfgPasswordResetTokenExp < n →
      accountService.PasswordReset d token password w =
          (some (.wrap "accountService - PasswordReset" ErrAccountResetPasswordTokenExpired),
            { w with st := s2,
                     trace := w.trace ++ [.repoFindPasswordResetToken token, .timeNow] })
        ∧ failsWith (accountService.PasswordReset d token password w).1
            ErrAccountResetPasswordTokenExpired = true
        ∧ ∀ dto, Call.repoUpdatePasswordWithToken dto ∉
            callsSince w (accountService.PasswordReset d token password w).2)
    ∧ (n ≤ t.CreatedAt + d.cfgPasswordResetTokenExp →
      (accountService.PasswordReset d token password w).1 ≠
          some (.wrap "accountService - PasswordReset" ErrAccountResetPasswordTokenExpired)
        ∧ Call.hashPassword password ∈
            callsSince w (accountService.PasswordReset d token password w).2) := by
  constructor
  · intro hlt
    have hrun : accountService.PasswordReset d token password w =
        (some (.wrap "accountService - PasswordReset" ErrAccountResetPasswordTokenExpired),
          { w with st := s2,
                   trace := w.trace ++ [.repoFindPasswordResetToken token, .timeNow] }) := by
      simp [accountService.PasswordReset, invoke, hfind, hnow, Time.After, Time.Add, hlt]
    refine ⟨hrun, ?_, ?_⟩
    · rw [hrun]; rfl
    · intro dto
      rw [hrun]
      simp [callsSince]
  · intro hle
    have hnot : ¬ (t.CreatedAt + d.cfgPasswordResetTokenExp < n) := not_lt.mpr hle
    rcases hh : d.hashPassword password s2 with ⟨_ | h, s3⟩
    · simp [accountService.PasswordReset, invoke, hfind, hnow, Time.After, Time.Add, hnot,
        Account.GeneratePasswordHash, hh, callsSince]
    · rcases hu : d.repoUpdatePasswordWithToken
          { Token := t.Token, AccountId := t.AccountId, PasswordHash := h,
            UpdatedAt := (d.timeNow s3).1 } (d.timeNow s3).2 with ⟨_ | e, s5⟩
      · simp [accountService.PasswordReset, invoke, hfind, hnow, Time.After, Time.Add, hnot,
          Account.GeneratePasswordHash, hh, hu, callsSince]
      · simp [accountService.PasswordReset, invoke, hfind, hnow, Time.After, Time.Add, hnot,
          Account.GeneratePasswordHash, hh, hu, callsSince]

/-- Witness for C1 on the in-memory store: the token `tok-1` was created at 100 and
the clock reads 150; with a TTL of 49 the call is rejected as expired, with a TTL
of 50 (deadline equal to the reading) it is not. -/
theorem PasswordReset_expiry_check_witness :
    (memDeps 49).repoFindPasswordResetToken "tok-1" demoState =
        (.ok { Token := "tok-1", AccountId := "id:a@x.com", CreatedAt := 100 }, demoState)
      ∧ (memDeps 49).timeNow demoState = (150, { demoState with clock := 151 })
      ∧ accountService.PasswordReset (memDeps 49) "tok-1" "new" { st := demoState } =
          (some (.wrap "accountService - PasswordReset" ErrAccountResetPasswordTokenExpired),
            { st := { demoState with clock := 151 },
              trace := [.repoFindPasswordResetToken "tok-1", .timeNow] })
      ∧ (accountService.PasswordReset (memDeps 50) "tok-1" "new" { st := demoState }).1 ≠
          some (.wrap "accountService - PasswordReset" ErrAccountResetPasswordTokenExpired) :=
  ⟨rfl, rfl,
    ((PasswordReset_expiry_check (memDeps 49) { st := demoState } "tok-1" "new"
        { Token := "tok-1", AccountId := "id:a@x.com", CreatedAt := 100 }
        demoState { demoState with clock := 151 } 150 rfl rfl).1 (by decide)).1,
    ((PasswordReset_expiry_check (memDeps 50) { st := demoState } "tok-1" "new"
        { Token := "tok-1", AccountId := "id:a@x.com", CreatedAt := 100 }
        demoState { demoState with clock := 151 } 150 rfl rfl).2 (by decide)).1⟩

theorem Error.Is_wrap (c : String) (e target : Error) (h : e.Is target = true) :
    (Error.wrap c e).Is target = true := by
  simp [Error.Is, h]

/-- C2: for a found, unexpired reset token and a password whose hashing succeeds,
`PasswordReset` calls the lookup, the clock, the hasher, the clock again and then
`UpdatePasswordWithToken` exactly once, with the found token's string and account
id and the hasher's output for the new password; the call ends in the state that
store call leaves, and it returns nil exactly when that store call returns nil. -/
theorem PasswordReset_single_update (d : Deps σ) (w : World σ) (token password : String)
    (t : PasswordResetToken) (s1 s2 s3 s4 s5 : σ) (n n2 : Time) (h : String)
    (r : Option Error)
    (hfind : d.repoFindPasswordResetToken token w.st = (.ok t, s1))
    (hnow : d.timeNow s1 = (n, s2))
    (hlive : n ≤ t.CreatedAt + d.cfgPasswordResetTokenExp)
    (hhash : d.hashPassword password s2 = (.ok h, s3))
    (hnow2 : d.timeNow s3 = (n2, s4))
    (hupd : d.repoUpdatePasswordWithToken
      { Token := t.Token, AccountId := t.AccountId, PasswordHash := h, UpdatedAt := n2 } s4 =
        (r, s5)) :
    callsSince w (accountService.PasswordReset d token password w).2 =
        [.repoFindPasswordResetToken token, .timeNow, .hashPassword password, .timeNow,
          .repoUpdatePasswordWithToken
            { Token := t.Token, AccountId := t.AccountId, PasswordHash := h,
              UpdatedAt := n2 }]
      ∧ (callsSince w (accountService.PasswordReset d token password w).2).filter
          Call.isUpdatePasswordWithToken =
        [.repoUpdatePasswordWithToken
          { Token := t.Token, AccountId := t.AccountId, PasswordHash := h, UpdatedAt := n2 }]
      ∧ (accountService.PasswordReset d token password w).2.st = s5
      ∧ ((accountService.PasswordReset d token password w).1 = none ↔ r = none)
      ∧ ∀ e, r = some e → (accountService.PasswordReset d token password w).1 =
          some (.wrap "accountService - PasswordReset - s.repo.UpdatePasswordWithToken" e) := by
  have hnot : ¬ (t.CreatedAt + d.cfgPasswordResetTokenExp < n) := not_lt.mpr hlive
  cases r with
  | none =>
    simp [accountService.PasswordReset, invoke, hfind, hnow, Time.After, Time.Add, hnot,
      Account.GeneratePasswordHash, hhash, hnow2, hupd, callsSince,
      Call.isUpdatePasswordWithToken]
  | some e =>
    simp [accountService.PasswordReset, invoke, hfind, hnow, Time.After, Time.Add, hnot,
      Account.GeneratePasswordHash, hhash, hnow2, hupd, callsSince,
      Call.isUpdatePasswordWithToken]

/-- Witness for C2 on the in-memory store: redeeming `tok-1` within its TTL makes
the single store update with the hash of the new password and returns nil. -/
theorem PasswordReset_single_update_witness :
    (150 : Time) ≤ 100 + (memDeps 50).cfgPasswordResetTokenExp
      ∧ callsSince { st := demoState }
          (accountService.PasswordReset (memDeps 50) "tok-1" "new" { st := demoState }).2 =
        [.repoFindPasswordResetToken "tok-1", .timeNow, .hashPassword "new", .timeNow,
          .repoUpdatePasswordWithToken
            { Token := "tok-1", AccountId := "id:a@x.com", PasswordHash := "hash(new)",
              UpdatedAt := 151 }]
      ∧ (accountService.PasswordReset (memDeps 50) "tok-1" "new" { st := demoState }).1 = none :=
  have key := PasswordReset_single_update (memDeps 50) { st := demoState } "tok-1" "new"
    { Token := "tok-1", AccountId := "id:a@x.com", CreatedAt := 100 }
    demoState { demoState with clock := 151 } { demoState with clock := 151 }
    { demoState with clock := 152 }
    { demoState with
        clock := 152,
        accounts := [{ Id := "id:a@x.com", Email := "a@x.com", Username := "alice",
                       PasswordHash := "hash(new)", VerificationCode := "code-1",
                       UpdatedAt := 151 }],
        passwordTokens := [] }
    150 151 "hash(new)" none rfl rfl (by decide) rfl rfl (by decide)
  ⟨by decide, key.1, key.2.2.2.1.mpr rfl⟩

/-- C3: when the store does not find the token, that is, its lookup fails with an
error that is `ErrPasswordTokenNotFound`, `PasswordReset` returns that error
wrapped, so the result is `ErrPasswordTokenNotFound`; the lookup is the only
collaborator call: the password is not hashed and `UpdatePasswordWithToken` is not
called. -/
theorem PasswordReset_token_not_found (d : Deps σ) (w : World σ) (token password : String)
    (e : Error) (s1 : σ)
    (hfind : d.repoFindPasswordResetToken token w.st = (.error e, s1))
    (hnf : e.Is ErrPasswordTokenNotFound = true) :
    accountService.PasswordReset d token password w =
        (some (.wrap "accountService - PasswordReset - s.repo.FindPasswordResetToken" e),
          { w with st := s1, trace := w.trace ++ [.repoFindPasswordResetToken token] })
      ∧ failsWith (accountService.PasswordReset d token password w).1
          ErrPasswordTokenNotFound = true
      ∧ callsSince w (accountService.PasswordReset d token password w).2 =
          [.repoFindPasswordResetToken token] := by
  have hrun : accountService.PasswordReset d token password w =
      (some (.wrap "accountService - PasswordReset - s.repo.FindPasswordResetToken" e),
        { w with st := s1, trace := w.trace ++ [.repoFindPasswordResetToken token] }) := by
    simp [accountService.PasswordReset, invoke, hfind]
  refine ⟨hrun, ?_, ?_⟩
  · rw [hrun]
    exact Error.Is_wrap _ _ _ hnf
  · rw [hrun]
    simp [callsSince]

/-- Witness for C3 on the in-memory store, which holds no token `tok-9`. -/
theorem PasswordReset_token_not_found_witness :
    (memDeps 50).repoFindPasswordResetToken "tok-9" demoState =
        (.error ErrPasswordTokenNotFound, demoState)
      ∧ accountService.PasswordReset (memDeps 50) "tok-9" "new" { st := demoState } =
        (some (.wrap "accountService - PasswordReset - s.repo.FindPasswordResetToken"
          ErrPasswordTokenNotFound),
          { st := demoState, trace := [.repoFindPasswordResetToken "tok-9"] }) :=
  ⟨rfl, (PasswordReset_token_not_found (memDeps 50) { st := demoState } "tok-9" "new"
    ErrPasswordTokenNotFound demoState rfl rfl).1⟩

/-! ### `RequestPasswordReset` -/

/-- What the first statement of `RequestPasswordReset` does when it yields an
email: a login that parses as an address is used as it is, with no collaborator
call; any other login is looked up as a username, and the email is the one of
the account the store returned. -/
theorem resolve_ok (d : Deps σ) (login email : String) (w w1 : World σ)
    (h : accountService.RequestPasswordReset.resolve d login w = (.ok email, w1)) :
    (d.mailParseAddress login = true ∧ email = login ∧ w1 = w) ∨
    (d.mailParseAddress login = false ∧
      (∃ a, (d.repoFindByUsername login w.st).1 = .ok a ∧ email = a.Email) ∧
      w1 = { w with st := (d.repoFindByUsername login w.st).2,
                    trace := w.trace ++ [.repoFindByUsername login] }) := by
  unfold accountService.RequestPasswordReset.resolve at h
  by_cases hp : d.mailParseAddress login = true
  · left
    simp [hp] at h
    exact ⟨hp, h.1.symm, h.2.symm⟩
  · right
    simp only [Bool.not_eq_true] at hp
    rcases hf : d.repoFindByUsername login w.st with ⟨_ | a, s1⟩
    · simp [hp, accountService.GetByUsername, invoke, hf] at h
    · simp [hp, accountService.GetByUsername, invoke, hf] at h
      exact ⟨hp, ⟨a, rfl, h.1.symm⟩, h.2.symm⟩

theorem resolve_ok_trace (d : Deps σ) (login email : String) (w w1 : World σ)
    (h : accountService.RequestPasswordReset.resolve d login w = (.ok email, w1)) :
    w1.trace = w.trace ++ resolveCalls d login ∧ w1.spawned = w.spawned := by
  rcases resolve_ok d login email w w1 h with ⟨hp, _, hw⟩ | ⟨hp, _, hw⟩
  · subst hw
    simp [resolveCalls, hp]
  · subst hw
    simp [resolveCalls, hp]

/-- C4: when the login has been resolved to an email, the issuer has produced a
token and the store's insert fails with an error that is
`ErrPasswordTokenAlreadyExist`, `RequestPasswordReset` returns that error wrapped
(so the result is `ErrPasswordTokenAlreadyExist`), the rejected insert is the last
collaborator call, the state is the one the store left when it rejected the
insert, and no password-reset email is sent. -/
theorem RequestPasswordReset_token_already_exists (d : Deps σ) (w w1 : World σ)
    (login email t : String) (e : Error) (s2 s3 : σ)
    (hres : accountService.RequestPasswordReset.resolve d login w = (.ok email, w1))
    (hnew : d.newUnique passwordResetTokenLength w1.st = (.ok t, s2))
    (hins : d.repoInsertPasswordResetToken email t s2 = (some e, s3))
    (hdup : e.Is ErrPasswordTokenAlreadyExist = true) :
    accountService.RequestPasswordReset d login w =
        (some (.wrap "accountService - RequestPasswordReset - s.repo.InsertPasswordResetToken"
          e),
          { w1 with st := s3,
                    trace := w1.trace ++ [.newUnique 64, .repoInsertPasswordResetToken email t] })
      ∧ failsWith (accountService.RequestPasswordReset d login w).1
          ErrPasswordTokenAlreadyExist = true
      ∧ callsSince w (accountService.RequestPasswordReset d login w).2 =
          resolveCalls d login ++ [.newUnique 64, .repoInsertPasswordResetToken email t]
      ∧ (accountService.RequestPasswordReset d login w).2.st = s3
      ∧ ∀ em tk, Call.sendAccountPasswordResetMail em tk ∉
          callsSince w (accountService.RequestPasswordReset d login w).2 := by
  have hrun : accountService.RequestPasswordReset d login w =
      (some (.wrap "accountService - RequestPasswordReset - s.repo.InsertPasswordResetToken"
        e),
        { w1 with st := s3,
                  trace := w1.trace ++ [.newUnique 64, .repoInsertPasswordResetToken email t] }) := by
    have hnew64 : d.newUnique 64 w1.st = (.ok t, s2) := hnew
    simp [accountService.RequestPasswordReset, hres, invoke, hnew64, hins,
      passwordResetTokenLength]
  have htr := (resolve_ok_trace d login email w w1 hres).1
  have hcalls : callsSince w (accountService.RequestPasswordReset d login w).2 =
      resolveCalls d login ++ [.newUnique 64, .repoInsertPasswordResetToken email t] := by
    rw [hrun]
    simp [callsSince, htr]
  refine ⟨hrun, ?_, hcalls, ?_, ?_⟩
  · rw [hrun]
    exact Error.Is_wrap _ _ _ hdup
  · rw [hrun]
  · intro em tk
    rw [hcalls]
    unfold resolveCalls
    split <;> simp

/-- Witness for C4 on the in-memory store: `alice` already has the live token
`tok-1`; a second request is rejected and the token table is unchanged. -/
theorem RequestPasswordReset_token_already_exists_witness :
    accountService.RequestPasswordReset.resolve (memDeps 50) "alice" { st := demoState } =
        (.ok "a@x.com", { st := demoState, trace := [.repoFindByUsername "alice"] })
      ∧ failsWith (accountService.RequestPasswordReset (memDeps 50) "alice"
          { st := demoState }).1 ErrPasswordTokenAlreadyExist = true
      ∧ (accountService.RequestPasswordReset (memDeps 50) "alice"
          { st := demoState }).2.st.passwordTokens = demoState.passwordTokens
      ∧ (accountService.RequestPasswordReset (memDeps 50) "alice"
          { st := demoState }).2.st.outbox = [] :=
  have key := RequestPasswordReset_token_already_exists (memDeps 50) { st := demoState }
    { st := demoState, trace := [.repoFindByUsername "alice"] } "alice" "a@x.com" "tok-2"
    ErrPasswordTokenAlreadyExist { demoState with uniques := ["tok-3"] }
    { demoState with uniques := ["tok-3"] } rfl rfl rfl rfl
  ⟨rfl, key.2.1, (congrArg MemState.passwordTokens key.2.2.2.1).trans rfl,
    (congrArg MemState.outbox key.2.2.2.1).trans rfl⟩

/-- C5, as the code has it: a login that parses as a mail address is used as the
email itself, with no account lookup, and the token is requested before the store
is asked anything: if the issuer fails the call fails with the issuer's error, and
if the store's insert then rejects the unknown email with an error that is
`ErrNotFound` the call fails with `ErrNotFound` after exactly the issuer call and
the rejected insert.  Any other login is looked up as a username: a found account
gives the email, and a lookup failure is returned wrapped twice after that single
call, so that it is `ErrNotFound` when the store says so, with no token requested,
no insert attempted and no email sent. -/
theorem RequestPasswordReset_login_resolution (d : Deps σ) (w : World σ) (login : String) :
    (d.mailParseAddress login = true →
      accountService.RequestPasswordReset.resolve d login w = (.ok login, w)
      ∧ (∀ e s2, d.newUnique passwordResetTokenLength w.st = (.error e, s2) →
          accountService.RequestPasswordReset d login w =
            (some (.wrap "accountService - RequestPasswordReset - strings.NewUnique" e),
              { w with st := s2, trace := w.trace ++ [.newUnique 64] }))
      ∧ (∀ t s2 e s3, d.newUnique passwordResetTokenLength w.st = (.ok t, s2) →
          d.repoInsertPasswordResetToken login t s2 = (some e, s3) →
          e.Is ErrNotFound = true →
          failsWith (accountService.RequestPasswordReset d login w).1 ErrNotFound = true
          ∧ callsSince w (accountService.RequestPasswordReset d login w).2 =
              [.newUnique 64, .repoInsertPasswordResetToken login t]
          ∧ (accountService.RequestPasswordReset d login w).2.st = s3))
    ∧ (d.mailParseAddress login = false →
      (∀ a s1, d.repoFindByUsername login w.st = (.ok a, s1) →
          accountService.RequestPasswordReset.resolve d login w =
            (.ok a.Email, { w with st := s1, trace := w.trace ++ [.repoFindByUsername login] }))
      ∧ (∀ e s1, d.repoFindByUsername login w.st = (.error e, s1) →
          accountService.RequestPasswordReset d login w =
            (some (.wrap "accountService - RequestPasswordReset - s.GetByUsername"
              (.wrap "accountService - GetByUsername - s.repo.FindByUsername" e)),
              { w with st := s1, trace := w.trace ++ [.repoFindByUsername login] })
          ∧ (e.Is ErrNotFound = true →
              failsWith (accountService.RequestPasswordReset d login w).1 ErrNotFound = true))) := by
  constructor
  · intro hp
    have hres : accountService.RequestPasswordReset.resolve d login w = (.ok login, w) := by
      simp [accountService.RequestPasswordReset.resolve, hp]
    refine ⟨hres, ?_, ?_⟩
    · intro e s2 hnew
      have hnew64 : d.newUnique 64 w.st = (.error e, s2) := hnew
      simp [accountService.RequestPasswordReset, hres, invoke, hnew64,
        passwordResetTokenLength]
    · intro t s2 e s3 hnew hins hnf
      have hnew64 : d.newUnique 64 w.st = (.ok t, s2) := hnew
      have hrun : accountService.RequestPasswordReset d login w =
          (some (.wrap
            "accountService - RequestPasswordReset - s.repo.InsertPasswordResetToken" e),
            { w with st := s3,
                     trace := w.trace ++ [.newUnique 64,
                       .repoInsertPasswordResetToken login t] }) := by
        simp [accountService.RequestPasswordReset, hres, invoke, hnew64, hins,
          passwordResetTokenLength]
      rw [hrun]
      exact ⟨Error.Is_wrap _ _ _ hnf, by simp [callsSince], rfl⟩
  · intro hp
    constructor
    · intro a s1 hf
      simp [accountService.RequestPasswordReset.resolve, hp, accountService.GetByUsername,
        invoke, hf]
    · intro e s1 hf
      have hrun : accountService.RequestPasswordReset d login w =
          (some (.wrap "accountService - RequestPasswordReset - s.GetByUsername"
            (.wrap "accountService - GetByUsername - s.repo.FindByUsername" e)),
            { w with st := s1, trace := w.trace ++ [.repoFindByUsername login] }) := by
        simp [accountService.RequestPasswordReset, accountService.RequestPasswordReset.resolve,
          hp, accountService.GetByUsername, invoke, hf]
      refine ⟨hrun, ?_⟩
      intro hnf
      rw [hrun]
      exact Error.Is_wrap _ _ _ (Error.Is_wrap _ _ _ hnf)

/-- Witness for C5 on the in-memory store: the unknown username `bob` fails with
`ErrNotFound` after the single lookup; the unknown address `nobody@x.com` fails with
`ErrNotFound` once a token has been issued and the insert rejected. -/
theorem RequestPasswordReset_login_resolution_witness :
    (memDeps 50).mailParseAddress "bob" = false
      ∧ (memDeps 50).mailParseAddress "nobody@x.com" = true
      ∧ accountService.RequestPasswordReset (memDeps 50) "bob" { st := freshState } =
          (some (.wrap "accountService - RequestPasswordReset - s.GetByUsername"
            (.wrap "accountService - GetByUsername - s.repo.FindByUsername" ErrNotFound)),
            { st := freshState, trace := [.repoFindByUsername "bob"] })
      ∧ (failsWith (accountService.RequestPasswordReset (memDeps 50) "nobody@x.com"
            { st := freshState }).1 ErrNotFound = true
        ∧ callsSince { st := freshState }
            (accountService.RequestPasswordReset (memDeps 50) "nobody@x.com"
              { st := freshState }).2 =
            [.newUnique 64, .repoInsertPasswordResetToken "nobody@x.com" "tok-2"]
        ∧ (accountService.RequestPasswordReset (memDeps 50) "nobody@x.com"
              { st := freshState }).2.st = { freshState with uniques := ["tok-3"] }) :=
  ⟨by decide, by decide,
    (((RequestPasswordReset_login_resolution (memDeps 50) { st := freshState } "bob").2
      (by decide)).2 ErrNotFound freshState rfl).1,
    ((RequestPasswordReset_login_resolution (memDeps 50) { st := freshState }
      "nobody@x.com").1 (by decide)).2.2 "tok-2" { freshState with uniques := ["tok-3"] }
      ErrNotFound { freshState with uniques := ["tok-3"] } rfl rfl rfl⟩

/-- Counterexample to C5 as stated: no account of `dryState` has the email or the
username `nobody@x.com`, the login parses as an address, and the token issuer
fails; `RequestPasswordReset` then fails with the issuer's error, which is not
`ErrNotFound`, because the token is requested before the store is asked about the
account. -/
theorem RequestPasswordReset_login_resolution_counterexample :
    (dryState.accounts.all
        (fun a => !(a.Email = "nobody@x.com") && !(a.Username = "nobody@x.com"))) = true
      ∧ (memDeps 50).mailParseAddress "nobody@x.com" = true
      ∧ accountService.RequestPasswordReset (memDeps 50) "nobody@x.com" { st := dryState } =
          (some (.wrap "accountService - RequestPasswordReset - strings.NewUnique"
            (.sentinel "rand: no entropy")),
            { st := dryState, trace := [.newUnique 64] })
      ∧ failsWith (accountService.RequestPasswordReset (memDeps 50) "nobody@x.com"
          { st := dryState }).1 ErrNotFound = false := by
  decide

/-- The run of `RequestPasswordReset` on the path where the insert succeeds. -/
theorem RequestPasswordReset_run (d : Deps σ) (w w1 : World σ)
    (login email t : String) (s2 s3 s4 : σ) (r : Option Error)
    (hres : accountService.RequestPasswordReset.resolve d login w = (.ok email, w1))
    (hnew : d.newUnique passwordResetTokenLength w1.st = (.ok t, s2))
    (hins : d.repoInsertPasswordResetToken email t s2 = (none, s3))
    (hsend : d.sendAccountPasswordResetMail email t s3 = (r, s4)) :
    accountService.RequestPasswordReset d login w =
      (r.map (Error.wrap
          "accountService - RequestPasswordReset - s.email.SendAccountPasswordResetMail"),
        { w1 with st := s4,
                  trace := w1.trace ++ [.newUnique 64, .repoInsertPasswordResetToken email t,
                    .sendAccountPasswordResetMail email t] }) := by
  have hnew64 : d.newUnique 64 w1.st = (.ok t, s2) := hnew
  cases r with
  | none =>
    simp [accountService.RequestPasswordReset, hres, invoke, hnew64, hins, hsend,
      passwordResetTokenLength]
  | some e =>
    simp [accountService.RequestPasswordReset, hres, invoke, hnew64, hins, hsend,
      passwordResetTokenLength]

/-- C6: whenever `RequestPasswordReset` reaches the store's insert and the insert
succeeds, the issuer was asked for a token of length 64 and the calls that follow
the resolution of the login are that request, the insert and exactly one send of
the password-reset email, addressed to the resolved email (the login itself when it
parses as an address, else the email of the account found by username) and
carrying the very token that was inserted. -/
theorem RequestPasswordReset_sends_inserted_token (d : Deps σ) (w w1 : World σ)
    (login email t : String) (s2 s3 : σ)
    (hres : accountService.RequestPasswordReset.resolve d login w = (.ok email, w1))
    (hnew : d.newUnique passwordResetTokenLength w1.st = (.ok t, s2))
    (hins : d.repoInsertPasswordResetToken email t s2 = (none, s3)) :
    callsSince w (accountService.RequestPasswordReset d login w).2 =
        resolveCalls d login ++
          [.newUnique 64, .repoInsertPasswordResetToken email t,
            .sendAccountPasswordResetMail email t]
      ∧ (callsSince w (accountService.RequestPasswordReset d login w).2).filter
          Call.isSendAccountPasswordResetMail = [.sendAccountPasswordResetMail email t]
      ∧ ((d.mailParseAddress login = true ∧ email = login) ∨
          (d.mailParseAddress login = false ∧
            ∃ a, (d.repoFindByUsername login w.st).1 = .ok a ∧ email = a.Email)) := by
  have htr := (resolve_ok_trace d login email w w1 hres).1
  have hcalls : callsSince w (accountService.RequestPasswordReset d login w).2 =
      resolveCalls d login ++
        [.newUnique 64, .repoInsertPasswordResetToken email t,
          .sendAccountPasswordResetMail email t] := by
    rw [RequestPasswordReset_run d w w1 login email t s2 s3 _ _ hres hnew hins rfl]
    simp [callsSince, htr]
  refine ⟨hcalls, ?_, ?_⟩
  · rw [hcalls]
    unfold resolveCalls
    split <;> simp [Call.isSendAccountPasswordResetMail]
  · rcases resolve_ok d login email w w1 hres with ⟨hp, he, _⟩ | ⟨hp, ha, _⟩
    · exact Or.inl ⟨hp, he⟩
    · exact Or.inr ⟨hp, ha⟩

/-- Witness for C6 on the in-memory store: a request for `alice`, who has no live
token, inserts `tok-2` and sends `tok-2` to `a@x.com`. -/
theorem RequestPasswordReset_sends_inserted_token_witness :
    (memDeps 50).repoInsertPasswordResetToken "a@x.com" "tok-2"
        { freshState with uniques := ["tok-3"] } =
        (none, { freshState with
          uniques := ["tok-3"],
          passwordTokens := [{ Token := "tok-2", AccountId := "id:a@x.com",
                               CreatedAt := 150 }] })
      ∧ callsSince { st := freshState }
          (accountService.RequestPasswordReset (memDeps 50) "alice" { st := freshState }).2 =
        [.repoFindByUsername "alice", .newUnique 64,
          .repoInsertPasswordResetToken "a@x.com" "tok-2",
          .sendAccountPasswordResetMail "a@x.com" "tok-2"] :=
  ⟨rfl, (RequestPasswordReset_sends_inserted_token (memDeps 50) { st := freshState }
    { st := freshState, trace := [.repoFindByUsername "alice"] } "alice" "a@x.com" "tok-2"
    { freshState with uniques := ["tok-3"] }
    { freshState with
        uniques := ["tok-3"],
        passwordTokens := [{ Token := "tok-2", AccountId := "id:a@x.com", CreatedAt := 150 }] }
    rfl rfl rfl).1⟩

/-- C7, as the code has it: when the token insert has succeeded, the result of the
synchronous send of the password-reset email is the result of
`RequestPasswordReset`: nil exactly when the send returns nil, and a send error is
returned to the caller wrapped. -/
theorem RequestPasswordReset_send_result_returned (d : Deps σ) (w w1 : World σ)
    (login email t : String) (s2 s3 s4 : σ) (r : Option Error)
    (hres : accountService.RequestPasswordReset.resolve d login w = (.ok email, w1))
    (hnew : d.newUnique passwordResetTokenLength w1.st = (.ok t, s2))
    (hins : d.repoInsertPasswordResetToken email t s2 = (none, s3))
    (hsend : d.sendAccountPasswordResetMail email t s3 = (r, s4)) :
    ((accountService.RequestPasswordReset d login w).1 = none ↔ r = none)
      ∧ ∀ e, r = some e →
          (accountService.RequestPasswordReset d login w).1 =
            some (.wrap
              "accountService - RequestPasswordReset - s.email.SendAccountPasswordResetMail"
              e) := by
  rw [RequestPasswordReset_run d w w1 login email t s2 s3 s4 r hres hnew hins hsend]
  cases r <;> simp

/-- Witness for C7 as amended, on the in-memory store with a working mailer: the
insert succeeds, the send succeeds, and the call returns nil. -/
theorem RequestPasswordReset_send_result_returned_witness :
    (memDeps 50).sendAccountPasswordResetMail "a@x.com" "tok-2"
        { freshState with
            uniques := ["tok-3"],
            passwordTokens := [{ Token := "tok-2", AccountId := "id:a@x.com",
                                 CreatedAt := 150 }] } =
        (none, { freshState with
            uniques := ["tok-3"],
            passwordTokens := [{ Token := "tok-2", AccountId := "id:a@x.com",
                                 CreatedAt := 150 }],
            outbox := [("a@x.com", "tok-2")] })
      ∧ (accountService.RequestPasswordReset (memDeps 50) "a@x.com" { st := freshState }).1 =
          none :=
  ⟨rfl, (RequestPasswordReset_send_result_returned (memDeps 50) { st := freshState }
    { st := freshState } "a@x.com" "a@x.com" "tok-2"
    { freshState with uniques := ["tok-3"] }
    { freshState with
        uniques := ["tok-3"],
        passwordTokens := [{ Token := "tok-2", AccountId := "id:a@x.com", CreatedAt := 150 }] }
    { freshState with
        uniques := ["tok-3"],
        passwordTokens := [{ Token := "tok-2", AccountId := "id:a@x.com", CreatedAt := 150 }],
        outbox := [("a@x.com", "tok-2")] }
    none rfl rfl rfl rfl).1.mpr rfl⟩

/-- Counterexample to C7 as stated: with a failing mailer the token insert for
`a@x.com` succeeds (the token `tok-2` is in the store afterwards), and
`RequestPasswordReset` returns the mailer's error to its caller. -/
theorem RequestPasswordReset_send_failure_counterexample :
    (memDeps 50).repoInsertPasswordResetToken "a@x.com" "tok-2"
        { mailerDownState with uniques := ["tok-3"] } =
        (none, { mailerDownState with
          uniques := ["tok-3"],
          passwordTokens := [{ Token := "tok-2", AccountId := "id:a@x.com",
                               CreatedAt := 150 }] })
      ∧ accountService.RequestPasswordReset (memDeps 50) "a@x.com" { st := mailerDownState } =
          (some (.wrap
            "accountService - RequestPasswordReset - s.email.SendAccountPasswordResetMail"
            (.sentinel "smtp: delivery failed")),
            { st := { mailerDownState with
                uniques := ["tok-3"],
                passwordTokens := [{ Token := "tok-2", AccountId := "id:a@x.com",
                                     CreatedAt := 150 }] },
              trace := [.newUnique 64, .repoInsertPasswordResetToken "a@x.com" "tok-2",
                .sendAccountPasswordResetMail "a@x.com" "tok-2"] })
      ∧ (accountService.RequestPasswordReset (memDeps 50) "a@x.com"
          { st := mailerDownState }).1 ≠ none := by
  decide

/-! ### `Create` -/

/-- The run of `Create` once the username has passed the block list and the hash
and the verification code have been produced, when the store accepts the prepared
account: the stored account is returned and the verification mail goroutine is
started. -/
theorem Create_run_ok (d : Deps σ) (w : World σ) (a a3 : Account) (h code : String)
    (s1 s2 s3 s4 : σ)
    (hblock : d.blockListFind a.Username w.st = (false, s1))
    (hhash : d.hashPassword a.Password s1 = (.ok h, s2))
    (hcode : d.newUnique verificationCodeLength s2 = (.ok code, s3))
    (hcreate : d.repoCreate (preparedAccount d a h code) s3 = (.ok a3, s4)) :
    accountService.Create d a w =
      (.ok a3,
        { st := s4,
          trace := w.trace ++ [.blockListFind a.Username, .hashPassword a.Password,
            .newUnique 64, .repoCreate (preparedAccount d a h code)],
          spawned :=
            w.spawned ++ [.sendAccountVerificationMail a3.Email a3.VerificationCode] }) := by
  have hcode64 : d.newUnique 64 s2 = (.ok code, s3) := hcode
  have hcreate2 : d.repoCreate
      { Account.SetDiceBearAvatar d { a with PasswordHash := h } with
        VerificationCode := code } s3 = (.ok a3, s4) := hcreate
  simp [accountService.Create, invoke, hblock, Account.GeneratePasswordHash, hhash,
    Account.GenerateVerificationCode, verificationCodeLength, hcode64, hcreate2,
    preparedAccount, spawn]

/-- The same run when the store rejects the prepared account: the store's error is
returned wrapped, and no goroutine is started. -/
theorem Create_run_error (d : Deps σ) (w : World σ) (a : Account) (h code : String)
    (s1 s2 s3 s4 : σ) (e : Error)
    (hblock : d.blockListFind a.Username w.st = (false, s1))
    (hhash : d.hashPassword a.Password s1 = (.ok h, s2))
    (hcode : d.newUnique verificationCodeLength s2 = (.ok code, s3))
    (hcreate : d.repoCreate (preparedAccount d a h code) s3 = (.error e, s4)) :
    accountService.Create d a w =
      (.error (.wrap "accountService - Create - s.repo.Create" e),
        { st := s4,
          trace := w.trace ++ [.blockListFind a.Username, .hashPassword a.Password,
            .newUnique 64, .repoCreate (preparedAccount d a h code)],
          spawned := w.spawned }) := by
  have hcode64 : d.newUnique 64 s2 = (.ok code, s3) := hcode
  have hcreate2 : d.repoCreate
      { Account.SetDiceBearAvatar d { a with PasswordHash := h } with
        VerificationCode := code } s3 = (.error e, s4) := hcreate
  simp [accountService.Create, invoke, hblock, Account.GeneratePasswordHash, hhash,
    Account.GenerateVerificationCode, verificationCodeLength, hcode64, hcreate2,
    preparedAccount]

/-- C9: when the block list finds the username, `Create` fails with
`ErrAccountForbiddenUsername`, and the block list query is its only effect: no
other collaborator is called (no hash, no verification code, no store `Create`, no
mail) and no goroutine is started. -/
theorem Create_forbidden_username (d : Deps σ) (w : World σ) (a : Account) (s1 : σ)
    (hblock : d.blockListFind a.Username w.st = (true, s1)) :
    accountService.Create d a w =
        (.error (.wrap "accountService - Create - s.blockList.Find"
          ErrAccountForbiddenUsername),
          { w with st := s1, trace := w.trace ++ [.blockListFind a.Username] })
      ∧ failsWith (errorOf (accountService.Create d a w).1) ErrAccountForbiddenUsername = true
      ∧ callsSince w (accountService.Create d a w).2 = [.blockListFind a.Username]
      ∧ (accountService.Create d a w).2.spawned = w.spawned := by
  have hrun : accountService.Create d a w =
      (.error (.wrap "accountService - Create - s.blockList.Find"
        ErrAccountForbiddenUsername),
        { w with st := s1, trace := w.trace ++ [.blockListFind a.Username] }) := by
    simp [accountService.Create, invoke, hblock]
  refine ⟨hrun, ?_, ?_, ?_⟩
  · rw [hrun]; rfl
  · rw [hrun]; simp [callsSince]
  · rw [hrun]

/-- Witness for C9 on the in-memory store, whose block list holds `admin`. -/
theorem Create_forbidden_username_witness :
    (memDeps 50).blockListFind "admin" demoState = (true, demoState)
      ∧ accountService.Create (memDeps 50)
          { Email := "new@x.com", Username := "admin", Password := "pw" }
          { st := demoState } =
        (.error (.wrap "accountService - Create - s.blockList.Find"
          ErrAccountForbiddenUsername),
          { st := demoState, trace := [.blockListFind "admin"] }) :=
  ⟨by decide, (Create_forbidden_username (memDeps 50) { st := demoState }
    { Email := "new@x.com", Username := "admin", Password := "pw" } demoState
    (by decide)).1⟩

/-- The in-memory store rejects an account whose email or username is stored. -/
theorem memRepoCreate_exists (a : Account) (s : MemState)
    (h : s.accounts.any (fun b => b.Email = a.Email || b.Username = a.Username) = true) :
    memRepoCreate a s = (.error ErrAccountAlreadyExist, s) := by
  have h2 : (s.accounts.any fun b =>
      decide (b.Email = a.Email) || decide (b.Username = a.Username)) = true := h
  simp [memRepoCreate, h2]

/-- The in-memory store appends an account whose email and username are new. -/
theorem memRepoCreate_new (a : Account) (s : MemState)
    (h : s.accounts.any (fun b => b.Email = a.Email || b.Username = a.Username) = false) :
    memRepoCreate a s =
      (.ok { a with Id := "id:" ++ a.Email },
        { s with accounts := s.accounts ++ [{ a with Id := "id:" ++ a.Email }] }) := by
  have h2 : (s.accounts.any fun b =>
      decide (b.Email = a.Email) || decide (b.Username = a.Username)) = false := h
  simp [memRepoCreate, h2]

/-- `Create` on the in-memory collaborators, for a username that is not forbidden,
a working hasher and an issuer that still has a string to give, when the email or
the username is already stored. -/
theorem Create_mem_exists (ttl : Duration) (w : World MemState) (a : Account)
    (code : String) (rest : List String)
    (hallowed : a.Username ∉ w.st.forbidden) (hhasher : w.st.hasherDown = false)
    (hsupply : w.st.uniques = code :: rest)
    (hex : w.st.accounts.any (fun b => b.Email = a.Email || b.Username = a.Username) = true) :
    accountService.Create (memDeps ttl) a w =
      (.error (.wrap "accountService - Create - s.repo.Create" ErrAccountAlreadyExist),
        { st := { w.st with uniques := rest },
          trace := w.trace ++ [.blockListFind a.Username, .hashPassword a.Password,
            .newUnique 64,
            .repoCreate (preparedAccount (memDeps ttl) a ("hash(" ++ a.Password ++ ")") code)],
          spawned := w.spawned }) :=
  Create_run_error (memDeps ttl) w a
    ("hash(" ++ a.Password ++ ")") code w.st w.st { w.st with uniques := rest }
    { w.st with uniques := rest } ErrAccountAlreadyExist
    (by simp [memDeps, memBlockListFind, hallowed])
    (by simp [memDeps, memHashPassword, hhasher])
    (by simp [memDeps, memNewUnique, hsupply])
    (memRepoCreate_exists _ _ hex)

/-- `Create` on the in-memory collaborators under the same conditions, when
neither the email nor the username is stored. -/
theorem Create_mem_new (ttl : Duration) (w : World MemState) (a : Account)
    (code : String) (rest : List String)
    (hallowed : a.Username ∉ w.st.forbidden) (hhasher : w.st.hasherDown = false)
    (hsupply : w.st.uniques = code :: rest)
    (hnew : w.st.accounts.any (fun b => b.Email = a.Email || b.Username = a.Username) = false) :
    accountService.Create (memDeps ttl) a w =
      (.ok (memStored ttl a code),
        { st := { w.st with uniques := rest,
                            accounts := w.st.accounts ++ [memStored ttl a code] },
          trace := w.trace ++ [.blockListFind a.Username, .hashPassword a.Password,
            .newUnique 64,
            .repoCreate (preparedAccount (memDeps ttl) a ("hash(" ++ a.Password ++ ")") code)],
          spawned := w.spawned ++ [.sendAccountVerificationMail a.Email code] }) :=
  Create_run_ok (memDeps ttl) w a (memStored ttl a code)
    ("hash(" ++ a.Password ++ ")") code w.st w.st { w.st with uniques := rest }
    { w.st with uniques := rest, accounts := w.st.accounts ++ [memStored ttl a code] }
    (by simp [memDeps, memBlockListFind, hallowed])
    (by simp [memDeps, memHashPassword, hhasher])
    (by simp [memDeps, memNewUnique, hsupply])
    (memRepoCreate_new _ _ hnew)

/-- C10, as the code has it.  For an account whose username passed the block list
and whose password hash and verification code were produced: when the store's
`Create` fails with an error that is `ErrAccountAlreadyExist`, the service returns
that error wrapped and no account, makes no further collaborator call and starts
no mail goroutine.  On the in-memory store, under the same conditions: if the email
or the username is already stored, `Create` fails with `ErrAccountAlreadyExist` and
leaves the stored accounts and the outbox as they were; if neither is stored,
`Create` succeeds with the caller's email and username and the issued code, the
account is stored, and a second `Create` with the same email then fails with
`ErrAccountAlreadyExist` and stores nothing. -/
theorem Create_already_exists :
    (∀ (σ : Type) (d : Deps σ) (w : World σ) (a : Account) (h code : String)
        (s1 s2 s3 s4 : σ) (e : Error),
        d.blockListFind a.Username w.st = (false, s1) →
        d.hashPassword a.Password s1 = (.ok h, s2) →
        d.newUnique verificationCodeLength s2 = (.ok code, s3) →
        d.repoCreate (preparedAccount d a h code) s3 = (.error e, s4) →
        e.Is ErrAccountAlreadyExist = true →
        accountService.Create d a w =
            (.error (.wrap "accountService - Create - s.repo.Create" e),
              { st := s4,
                trace := w.trace ++ [.blockListFind a.Username, .hashPassword a.Password,
                  .newUnique 64, .repoCreate (preparedAccount d a h code)],
                spawned := w.spawned })
          ∧ failsWith (errorOf (accountService.Create d a w).1) ErrAccountAlreadyExist = true)
    ∧ (∀ (ttl : Duration) (s : MemState) (a : Account) (code : String) (rest : List String),
        a.Username ∉ s.forbidden → s.hasherDown = false → s.uniques = code :: rest →
        (s.accounts.any (fun b => b.Email = a.Email || b.Username = a.Username) = true →
          failsWith (errorOf (accountService.Create (memDeps ttl) a { st := s }).1)
              ErrAccountAlreadyExist = true
            ∧ (accountService.Create (memDeps ttl) a { st := s }).2.st.accounts = s.accounts
            ∧ (accountService.Create (memDeps ttl) a { st := s }).2.st.outbox = s.outbox
            ∧ (accountService.Create (memDeps ttl) a { st := s }).2.spawned = [])
        ∧ (s.accounts.any (fun b => b.Email = a.Email || b.Username = a.Username) = false →
          (∃ a3, (accountService.Create (memDeps ttl) a { st := s }).1 = .ok a3
              ∧ a3.Email = a.Email ∧ a3.Username = a.Username ∧ a3.VerificationCode = code
              ∧ (accountService.Create (memDeps ttl) a { st := s }).2.st.accounts =
                  s.accounts ++ [a3])
            ∧ ∀ (b : Account) (code2 : String) (rest2 : List String),
                b.Email = a.Email → b.Username ∉ s.forbidden → rest = code2 :: rest2 →
                failsWith (errorOf (accountService.Create (memDeps ttl) b
                    (accountService.Create (memDeps ttl) a { st := s }).2).1)
                    ErrAccountAlreadyExist = true
                  ∧ (accountService.Create (memDeps ttl) b
                      (accountService.Create (memDeps ttl) a { st := s }).2).2.st.accounts =
                    (accountService.Create (memDeps ttl) a { st := s }).2.st.accounts)) := by
  constructor
  · intro σ d w a h code s1 s2 s3 s4 e hblock hhash hcode hcreate hdup
    have hrun := Create_run_error d w a h code s1 s2 s3 s4 e hblock hhash hcode hcreate
    refine ⟨hrun, ?_⟩
    rw [hrun]
    exact Error.Is_wrap _ _ _ hdup
  · intro ttl s a code rest hallowed hhasher hsupply
    constructor
    · intro hex
      rw [Create_mem_exists ttl { st := s } a code rest hallowed hhasher hsupply hex]
      exact ⟨rfl, rfl, rfl, rfl⟩
    · intro hnew
      have hrun := Create_mem_new ttl { st := s } a code rest hallowed hhasher hsupply hnew
      refine ⟨⟨memStored ttl a code, by rw [hrun], rfl, rfl, rfl, by rw [hrun]⟩, ?_⟩
      intro b code2 rest2 hmail hallowedb hsupply2
      rw [hrun]
      have hexb : (s.accounts ++ [memStored ttl a code]).any
          (fun c => c.Email = b.Email || c.Username = b.Username) = true := by
        simp [memStored, preparedAccount, Account.SetDiceBearAvatar, hmail]
      rw [Create_mem_exists ttl _ b code2 rest2 hallowedb hhasher hsupply2 hexb]
      exact ⟨rfl, rfl⟩

/-- Witness for C10 as amended, on the in-memory store that holds `a@x.com` /
`alice`: a `Create` with the stored email is rejected by the store and returned
wrapped; `b@x.com` / `bob` is new and is created; a second `Create` with `b@x.com`
then fails with `ErrAccountAlreadyExist`. -/
theorem Create_already_exists_witness :
    accountService.Create (memDeps 50)
        { Email := "a@x.com", Username := "alice2", Password := "pw" } { st := demoState } =
        (.error (.wrap "accountService - Create - s.repo.Create" ErrAccountAlreadyExist),
          { st := { demoState with uniques := ["tok-3"] },
            trace := [.blockListFind "alice2", .hashPassword "pw", .newUnique 64,
              .repoCreate (preparedAccount (memDeps 50)
                { Email := "a@x.com", Username := "alice2", Password := "pw" }
                "hash(pw)" "tok-2")] })
      ∧ (accountService.Create (memDeps 50)
          { Email := "a@x.com", Username := "alice2", Password := "pw" }
          { st := demoState }).2.st.accounts = demoState.accounts
      ∧ (∃ a3, (accountService.Create (memDeps 50)
            { Email := "b@x.com", Username := "bob", Password := "pw" }
            { st := demoState }).1 = .ok a3
          ∧ a3.Email = "b@x.com" ∧ a3.Username = "bob" ∧ a3.VerificationCode = "tok-2"
          ∧ (accountService.Create (memDeps 50)
              { Email := "b@x.com", Username := "bob", Password := "pw" }
              { st := demoState }).2.st.accounts = demoState.accounts ++ [a3])
      ∧ failsWith (errorOf (accountService.Create (memDeps 50)
          { Email := "b@x.com", Username := "bobby", Password := "pw2" }
          (accountService.Create (memDeps 50)
            { Email := "b@x.com", Username := "bob", Password := "pw" }
            { st := demoState }).2).1) ErrAccountAlreadyExist = true :=
  ⟨(Create_already_exists.1 MemState (memDeps 50) { st := demoState }
      { Email := "a@x.com", Username := "alice2", Password := "pw" } "hash(pw)" "tok-2"
      demoState demoState { demoState with uniques := ["tok-3"] }
      { demoState with uniques := ["tok-3"] } ErrAccountAlreadyExist
      rfl rfl rfl rfl rfl).1,
    ((Create_already_exists.2 50 demoState
      { Email := "a@x.com", Username := "alice2", Password := "pw" } "tok-2" ["tok-3"]
      (by decide) rfl rfl).1 (by decide)).2.1,
    ((Create_already_exists.2 50 demoState
      { Email := "b@x.com", Username := "bob", Password := "pw" } "tok-2" ["tok-3"]
      (by decide) rfl rfl).2 (by decide)).1,
    (((Create_already_exists.2 50 demoState
      { Email := "b@x.com", Username := "bob", Password := "pw" } "tok-2" ["tok-3"]
      (by decide) rfl rfl).2 (by decide)).2
      { Email := "b@x.com", Username := "bobby", Password := "pw2" } "tok-3" []
      rfl (by decide) rfl).1⟩

/-- Counterexample to C10 as stated, on the in-memory store that holds `a@x.com` /
`alice` and forbids `admin`.  A `Create` with the stored email and the username
`admin` fails with `ErrAccountForbiddenUsername`, which is not
`ErrAccountAlreadyExist`; a `Create` with an email and a username that are both
new fails as well when the username is `admin`; and with the stored email and a
failing hasher or issuer, `Create` fails with the hasher's or the issuer's error
before the store is asked. -/
theorem Create_already_exists_counterexample :
    (demoState.accounts.any (fun b => b.Email = "a@x.com") = true
      ∧ accountService.Create (memDeps 50)
          { Email := "a@x.com", Username := "admin", Password := "pw" } { st := demoState } =
          (.error (.wrap "accountService - Create - s.blockList.Find"
            ErrAccountForbiddenUsername),
            { st := demoState, trace := [.blockListFind "admin"] })
      ∧ failsWith (errorOf (accountService.Create (memDeps 50)
          { Email := "a@x.com", Username := "admin", Password := "pw" }
          { st := demoState }).1) ErrAccountAlreadyExist = false)
    ∧ (demoState.accounts.any
          (fun b => b.Email = "new@x.com" || b.Username = "admin") = false
      ∧ errorOf (accountService.Create (memDeps 50)
          { Email := "new@x.com", Username := "admin", Password := "pw" }
          { st := demoState }).1 =
          some (.wrap "accountService - Create - s.blockList.Find"
            ErrAccountForbiddenUsername))
    ∧ failsWith (errorOf (accountService.Create (memDeps 50)
        { Email := "a@x.com", Username := "alice2", Password := "pw" }
        { st := { demoState with hasherDown := true } }).1) ErrAccountAlreadyExist = false
    ∧ failsWith (errorOf (accountService.Create (memDeps 50)
        { Email := "a@x.com", Username := "alice2", Password := "pw" }
        { st := dryState }).1) ErrAccountAlreadyExist = false :=
  ⟨⟨by decide, rfl, by decide⟩, ⟨by decide, by decide⟩, by decide, by decide⟩

/-! ### `RequestVerification`, `Verify`, `Delete` -/

/-- C11: `RequestVerification` makes one collaborator call of its own, the lookup
of the verification record, and its result does not depend on the mailer.  When
the lookup fails with an error that is `ErrNotFound` the call fails with
`ErrNotFound`; when the record is verified it fails with
`ErrAccountAlreadyVerified`; in both cases no goroutine is started, so no mail is
sent.  Otherwise it returns nil having started one goroutine, and running that
goroutine calls the mailer once, with the record's email and the record's code, on
the store as the lookup left it: over the call and its goroutine together the
collaborator calls are the lookup and that one send, so the token issuer and the
store's writes are never called. -/
theorem RequestVerification_outcomes (d : Deps σ) (w : World σ) (aid : String) :
    callsSince w (accountService.RequestVerification d aid w).2 = [.repoFindVerification aid]
      ∧ (accountService.RequestVerification d aid w).2.st = (d.repoFindVerification aid w.st).2
      ∧ (∀ e, (d.repoFindVerification aid w.st).1 = .error e →
          (accountService.RequestVerification d aid w).1 =
              some (.wrap "accountService - RequestVerification - s.repo.FindById" e)
            ∧ (accountService.RequestVerification d aid w).2.spawned = w.spawned
            ∧ (e.Is ErrNotFound = true →
                failsWith (accountService.RequestVerification d aid w).1 ErrNotFound = true))
      ∧ (∀ v, (d.repoFindVerification aid w.st).1 = .ok v → v.Verified = true →
          (accountService.RequestVerification d aid w).1 =
              some (.wrap "accountService" ErrAccountAlreadyVerified)
            ∧ failsWith (accountService.RequestVerification d aid w).1
                ErrAccountAlreadyVerified = true
            ∧ (accountService.RequestVerification d aid w).2.spawned = w.spawned)
      ∧ (∀ v, (d.repoFindVerification aid w.st).1 = .ok v → v.Verified = false →
          (accountService.RequestVerification d aid w).1 = none
            ∧ (accountService.RequestVerification d aid w).2.spawned =
                w.spawned ++ [.sendAccountVerificationMail v.Email v.Code]
            ∧ callsSince w (Goroutine.run d (.sendAccountVerificationMail v.Email v.Code)
                (accountService.RequestVerification d aid w).2) =
                [.repoFindVerification aid, .sendAccountVerificationMail v.Email v.Code]
            ∧ (Goroutine.run d (.sendAccountVerificationMail v.Email v.Code)
                (accountService.RequestVerification d aid w).2).st =
                (d.sendAccountVerificationMail v.Email v.Code
                  (d.repoFindVerification aid w.st).2).2)
      ∧ (∀ mailer : String → String → σ → Option Error × σ,
          accountService.RequestVerification
              { d with sendAccountVerificationMail := mailer } aid w =
            accountService.RequestVerification d aid w) := by
  rcases hf : d.repoFindVerification aid w.st with ⟨e0 | v, s1⟩
  · refine ⟨?_, ?_, ?_, ?_, ?_, ?_⟩
    · simp [accountService.RequestVerification, invoke, hf, callsSince]
    · simp [accountService.RequestVerification, invoke, hf]
    · intro e he
      have he2 : e0 = e := Except.error.inj he
      subst he2
      have hrun : (accountService.RequestVerification d aid w).1 =
          some (.wrap "accountService - RequestVerification - s.repo.FindById" e0) := by
        simp [accountService.RequestVerification, invoke, hf]
      refine ⟨hrun, ?_, ?_⟩
      · simp [accountService.RequestVerification, invoke, hf]
      · intro hnf
        rw [hrun]
        exact Error.Is_wrap _ _ _ hnf
    · intro v' hv
      simp at hv
    · intro v' hv
      simp at hv
    · intro mailer
      simp [accountService.RequestVerification, invoke, hf]
  · cases hver : v.Verified
    · refine ⟨?_, ?_, ?_, ?_, ?_, ?_⟩
      · simp [accountService.RequestVerification, invoke, hf, hver, callsSince, spawn]
      · simp [accountService.RequestVerification, invoke, hf, hver, spawn]
      · intro e he
        simp at he
      · intro v' hv hv'
        have hvv : v = v' := Except.ok.inj hv
        subst hvv
        rw [hver] at hv'
        exact absurd hv' (by decide)
      · intro v' hv _
        have hvv : v = v' := Except.ok.inj hv
        subst hvv
        refine ⟨?_, ?_, ?_, ?_⟩
        · simp [accountService.RequestVerification, invoke, hf, hver, spawn]
        · simp [accountService.RequestVerification, invoke, hf, hver, spawn]
        · simp [accountService.RequestVerification, invoke, hf, hver, spawn, Goroutine.run,
            callsSince]
        · simp [accountService.RequestVerification, invoke, hf, hver, spawn, Goroutine.run]
      · intro mailer
        simp [accountService.RequestVerification, invoke, hf, hver, spawn]
    · refine ⟨?_, ?_, ?_, ?_, ?_, ?_⟩
      · simp [accountService.RequestVerification, invoke, hf, hver, callsSince]
      · simp [accountService.RequestVerification, invoke, hf, hver]
      · intro e he
        simp at he
      · intro v' hv _
        have hvv : v = v' := Except.ok.inj hv
        subst hvv
        have hrun : (accountService.RequestVerification d aid w).1 =
            some (.wrap "accountService" ErrAccountAlreadyVerified) := by
          simp [accountService.RequestVerification, invoke, hf, hver]
        refine ⟨hrun, ?_, ?_⟩
        · rw [hrun]; rfl
        · simp [accountService.RequestVerification, invoke, hf, hver]
      · intro v' hv hv'
        have hvv : v = v' := Except.ok.inj hv
        subst hvv
        rw [hver] at hv'
        exact absurd hv' (by decide)
      · intro mailer
        simp [accountService.RequestVerification, invoke, hf, hver]

/-- Witness for C11 on the in-memory store: an unknown account id fails with
`ErrNotFound`, the verified `alice` of `verifiedState` fails with
`ErrAccountAlreadyVerified` and no goroutine is started, and the unverified `alice`
of `demoState` gets her stored code `code-1` re-sent: the goroutine puts one letter
with that code into the outbox and leaves the accounts, the reset tokens and the
issuer's supply as they were. -/
theorem RequestVerification_outcomes_witness :
    failsWith (accountService.RequestVerification (memDeps 50) "id:nobody"
        { st := demoState }).1 ErrNotFound = true
      ∧ (accountService.RequestVerification (memDeps 50) "id:a@x.com"
          { st := verifiedState }).1 = some (.wrap "accountService" ErrAccountAlreadyVerified)
      ∧ (accountService.RequestVerification (memDeps 50) "id:a@x.com"
          { st := verifiedState }).2.spawned = []
      ∧ (accountService.RequestVerification (memDeps 50) "id:a@x.com"
          { st := demoState }).1 = none
      ∧ (accountService.RequestVerification (memDeps 50) "id:a@x.com"
          { st := demoState }).2.spawned = [.sendAccountVerificationMail "a@x.com" "code-1"]
      ∧ callsSince { st := demoState }
          (Goroutine.run (memDeps 50) (.sendAccountVerificationMail "a@x.com" "code-1")
            (accountService.RequestVerification (memDeps 50) "id:a@x.com"
              { st := demoState }).2) =
          [.repoFindVerification "id:a@x.com", .sendAccountVerificationMail "a@x.com" "code-1"]
      ∧ (Goroutine.run (memDeps 50) (.sendAccountVerificationMail "a@x.com" "code-1")
          (accountService.RequestVerification (memDeps 50) "id:a@x.com"
            { st := demoState }).2).st =
          { demoState with outbox := [("a@x.com", "code-1")] } :=
  ⟨((RequestVerification_outcomes (memDeps 50) { st := demoState } "id:nobody").2.2.1
      ErrNotFound rfl).2.2 rfl,
    ((RequestVerification_outcomes (memDeps 50) { st := verifiedState } "id:a@x.com").2.2.2.1
      { Email := "a@x.com", Code := "code-1", Verified := true } rfl rfl).1,
    ((RequestVerification_outcomes (memDeps 50) { st := verifiedState } "id:a@x.com").2.2.2.1
      { Email := "a@x.com", Code := "code-1", Verified := true } rfl rfl).2.2,
    ((RequestVerification_outcomes (memDeps 50) { st := demoState } "id:a@x.com").2.2.2.2.1
      { Email := "a@x.com", Code := "code-1", Verified := false } rfl rfl).1,
    ((RequestVerification_outcomes (memDeps 50) { st := demoState } "id:a@x.com").2.2.2.2.1
      { Email := "a@x.com", Code := "code-1", Verified := false } rfl rfl).2.1,
    ((RequestVerification_outcomes (memDeps 50) { st := demoState } "id:a@x.com").2.2.2.2.1
      { Email := "a@x.com", Code := "code-1", Verified := false } rfl rfl).2.2.1,
    ((RequestVerification_outcomes (memDeps 50) { st := demoState } "id:a@x.com").2.2.2.2.1
      { Email := "a@x.com", Code := "code-1", Verified := false } rfl rfl).2.2.2⟩


/-- C12, as the code has it: `Verify` reads the clock once and then asks the store
to set the verified flag of the account owning the code to the `verified` argument
of the call, true or false as the caller passed it, together with that clock
reading as `updated_at`; the call returns nil exactly when the store does, and a
store error is returned wrapped, so that `Verify` fails with `ErrNotFound` when the
store reports that the code does not exist. -/
theorem Verify_forwards_flag (d : Deps σ) (w : World σ) (code : String) (verified : Bool)
    (n : Time) (s1 s2 : σ) (r : Option Error)
    (hnow : d.timeNow w.st = (n, s1))
    (hverify : d.repoVerify code verified n s1 = (r, s2)) :
    callsSince w (accountService.Verify d code verified w).2 =
        [.timeNow, .repoVerify code verified n]
      ∧ (accountService.Verify d code verified w).2.st = s2
      ∧ ((accountService.Verify d code verified w).1 = none ↔ r = none)
      ∧ ∀ e, r = some e →
          (accountService.Verify d code verified w).1 =
              some (.wrap "accountService - Verify - s.repo.Verify" e)
            ∧ (e.Is ErrNotFound = true →
                failsWith (accountService.Verify d code verified w).1 ErrNotFound = true) := by
  cases r with
  | none =>
    simp [accountService.Verify, invoke, hnow, hverify, callsSince]
  | some e0 =>
    have hrun : (accountService.Verify d code verified w).1 =
        some (.wrap "accountService - Verify - s.repo.Verify" e0) := by
      simp [accountService.Verify, invoke, hnow, hverify]
    refine ⟨?_, ?_, ?_, ?_⟩
    · simp [accountService.Verify, invoke, hnow, hverify, callsSince]
    · simp [accountService.Verify, invoke, hnow, hverify]
    · simp [hrun]
    · intro e he
      have he2 : e0 = e := Option.some.inj he
      subst he2
      refine ⟨hrun, ?_⟩
      intro hnf
      rw [hrun]
      exact Error.Is_wrap _ _ _ hnf

/-- Witness for C12 as amended, on the in-memory store: verifying `code-1` with the
flag true at clock reading 150 asks the store for exactly that and succeeds; an
unknown code fails with `ErrNotFound`. -/
theorem Verify_forwards_flag_witness :
    callsSince { st := demoState }
        (accountService.Verify (memDeps 50) "code-1" true { st := demoState }).2 =
        [.timeNow, .repoVerify "code-1" true 150]
      ∧ (accountService.Verify (memDeps 50) "code-1" true { st := demoState }).1 = none
      ∧ failsWith (accountService.Verify (memDeps 50) "code-9" true { st := demoState }).1
          ErrNotFound = true :=
  ⟨(Verify_forwards_flag (memDeps 50) { st := demoState } "code-1" true 150
      { demoState with clock := 151 }
      { demoState with
          clock := 151,
          accounts := [{ Id := "id:a@x.com", Email := "a@x.com", Username := "alice",
                         PasswordHash := "hash(old)", VerificationCode := "code-1",
                         Verified := true, UpdatedAt := 150 }] }
      none rfl rfl).1,
    (Verify_forwards_flag (memDeps 50) { st := demoState } "code-1" true 150
      { demoState with clock := 151 }
      { demoState with
          clock := 151,
          accounts := [{ Id := "id:a@x.com", Email := "a@x.com", Username := "alice",
                         PasswordHash := "hash(old)", VerificationCode := "code-1",
                         Verified := true, UpdatedAt := 150 }] }
      none rfl rfl).2.2.1.mpr rfl,
    ((Verify_forwards_flag (memDeps 50) { st := demoState } "code-9" true 150
      { demoState with clock := 151 } { demoState with clock := 151 }
      (some ErrNotFound) rfl rfl).2.2.2 ErrNotFound rfl).2 rfl⟩

/-- Counterexample to C12 as stated: `Verify` called with the flag false on the
code of the verified `alice` asks the store to set verified to false, not true;
the call succeeds and on the in-memory store `alice` is then unverified. -/
theorem Verify_forwards_flag_counterexample :
    accountService.Verify (memDeps 50) "code-1" false { st := verifiedState } =
        (none,
          { st := { verifiedState with
              clock := 151,
              accounts := [{ Id := "id:a@x.com", Email := "a@x.com", Username := "alice",
                             PasswordHash := "hash(old)", VerificationCode := "code-1",
                             Verified := false, UpdatedAt := 150 }] },
            trace := [.timeNow, .repoVerify "code-1" false 150] })
      ∧ Call.repoVerify "code-1" true 150 ∉
          (accountService.Verify (memDeps 50) "code-1" false { st := verifiedState }).2.trace := by
  decide

/-- C13: `Delete` reads the clock, asks the store to archive the account with
archived = true and that reading as the update time, and only then terminates the
current session.  When archiving fails, its error is returned wrapped and the
session manager is not called; when archiving succeeds the session is terminated
and a failure of that step is returned wrapped; `Delete` returns nil exactly when
both steps return nil. -/
theorem Delete_archive_then_terminate (d : Deps σ) (w : World σ) (aid sid : String)
    (n : Time) (s1 s2 s3 : σ) (ra rt : Option Error)
    (hnow : d.timeNow w.st = (n, s1))
    (harchive : d.repoArchive aid true n s1 = (ra, s2))
    (hterminate : d.sessionTerminate sid s2 = (rt, s3)) :
    (∀ e, ra = some e →
        accountService.Delete d aid sid w =
          (some (.wrap "accountService - Archive - s.repo.Archive" e),
            { w with st := s2, trace := w.trace ++ [.timeNow, .repoArchive aid true n] })
        ∧ Call.sessionTerminate sid ∉ callsSince w (accountService.Delete d aid sid w).2)
      ∧ (ra = none →
          callsSince w (accountService.Delete d aid sid w).2 =
              [.timeNow, .repoArchive aid true n, .sessionTerminate sid]
            ∧ (accountService.Delete d aid sid w).2.st = s3
            ∧ ∀ e, rt = some e →
                (accountService.Delete d aid sid w).1 =
                  some (.wrap "accountService - Archive - s.session.TerminateAll" e))
      ∧ ((accountService.Delete d aid sid w).1 = none ↔ ra = none ∧ rt = none) := by
  cases ra with
  | some e0 =>
    have hrun : accountService.Delete d aid sid w =
        (some (.wrap "accountService - Archive - s.repo.Archive" e0),
          { w with st := s2, trace := w.trace ++ [.timeNow, .repoArchive aid true n] }) := by
      simp [accountService.Delete, invoke, hnow, harchive]
    refine ⟨?_, ?_, ?_⟩
    · intro e he
      have he2 : e0 = e := Option.some.inj he
      subst he2
      refine ⟨hrun, ?_⟩
      rw [hrun]
      simp [callsSince]
    · intro h
      simp at h
    · rw [hrun]
      simp
  | none =>
    cases rt with
    | none =>
      simp [accountService.Delete, invoke, hnow, harchive, hterminate, callsSince]
    | some e1 =>
      simp [accountService.Delete, invoke, hnow, harchive, hterminate, callsSince]

/-- Witness for C13 on the in-memory store: deleting `alice` from session `sid-1`
archives her at clock reading 150 and then terminates `sid-1`; deleting an unknown
account fails at the archive step and leaves the sessions alone. -/
theorem Delete_archive_then_terminate_witness :
    callsSince { st := sessionsState }
        (accountService.Delete (memDeps 50) "id:a@x.com" "sid-1" { st := sessionsState }).2 =
        [.timeNow, .repoArchive "id:a@x.com" true 150, .sessionTerminate "sid-1"]
      ∧ (accountService.Delete (memDeps 50) "id:a@x.com" "sid-1"
          { st := sessionsState }).1 = none
      ∧ accountService.Delete (memDeps 50) "id:nobody" "sid-1" { st := sessionsState } =
          (some (.wrap "accountService - Archive - s.repo.Archive" ErrNotFound),
            { st := { sessionsState with clock := 151 },
              trace := [.timeNow, .repoArchive "id:nobody" true 150] }) :=
  have key := Delete_archive_then_terminate (memDeps 50) { st := sessionsState }
    "id:a@x.com" "sid-1" 150 { sessionsState with clock := 151 }
    (memRepoArchive "id:a@x.com" true 150 { sessionsState with clock := 151 }).2
    (memSessionTerminate "sid-1"
      (memRepoArchive "id:a@x.com" true 150 { sessionsState with clock := 151 }).2).2
    none none rfl rfl rfl
  ⟨(key.2.1 rfl).1, key.2.2.mpr ⟨rfl, rfl⟩,
    ((Delete_archive_then_terminate (memDeps 50) { st := sessionsState }
      "id:nobody" "sid-1" 150 { sessionsState with clock := 151 }
      { sessionsState with clock := 151 }
      (memSessionTerminate "sid-1" { sessionsState with clock := 151 }).2
      (some ErrNotFound) none rfl rfl rfl).1 ErrNotFound rfl).1⟩

/-- The in-memory archive step leaves the sessions as they are. -/
theorem memRepoArchive_sessions (aid : String) (b : Bool) (t : Time) (s : MemState) :
    (memRepoArchive aid b t s).2.sessions = s.sessions := by
  unfold memRepoArchive
  split <;> rfl

/-- C14, as the code has it: a successful `Delete(accountId, currentSessionId)`
makes exactly one call to the session manager, `Terminate(currentSessionId)`, after
the clock reading and the archive step, and no call that names the account's other
sessions.  On the in-memory session manager, whose `Terminate` deletes one
session, the sessions after `Delete` are those before it without
`currentSessionId`: every other session, of the deleted account or not, remains. -/
theorem Delete_terminates_current_session_only :
    (∀ (σ : Type) (d : Deps σ) (w : World σ) (aid sid : String),
        (accountService.Delete d aid sid w).1 = none →
        callsSince w (accountService.Delete d aid sid w).2 =
          [.timeNow, .repoArchive aid true (d.timeNow w.st).1, .sessionTerminate sid])
    ∧ (∀ (ttl : Duration) (s : MemState) (aid sid : String),
        (accountService.Delete (memDeps ttl) aid sid { st := s }).1 = none →
        (accountService.Delete (memDeps ttl) aid sid { st := s }).2.st.sessions =
          s.sessions.filter (fun x => !(x.1 = sid)))
    ∧ (∀ (ttl : Duration) (s : MemState) (aid sid : String) (x : String × String),
        x ∈ s.sessions → x.1 ≠ sid →
        x ∈ (accountService.Delete (memDeps ttl) aid sid { st := s }).2.st.sessions) := by
  have hmem : ∀ (ttl : Duration) (s : MemState) (aid sid : String),
      (accountService.Delete (memDeps ttl) aid sid { st := s }).2.st.sessions = s.sessions
        ∨ (accountService.Delete (memDeps ttl) aid sid { st := s }).2.st.sessions =
            s.sessions.filter (fun x => !(x.1 = sid)) := by
    intro ttl s aid sid
    have hs := memRepoArchive_sessions aid true s.clock { s with clock := s.clock + 1 }
    rcases ha : memRepoArchive aid true s.clock { s with clock := s.clock + 1 } with ⟨_ | e, s2⟩
    · right
      rw [ha] at hs
      simp [accountService.Delete, invoke, memDeps, memTimeNow, ha, memSessionTerminate]
      simpa using congrArg (fun l => l.filter (fun x => !decide (x.1 = sid))) hs
    · left
      rw [ha] at hs
      simp [accountService.Delete, invoke, memDeps, memTimeNow, ha]
      simpa using hs
  refine ⟨?_, ?_, ?_⟩
  rotate_left
  · intro ttl s aid sid hok
    rcases ha : memRepoArchive aid true s.clock { s with clock := s.clock + 1 } with ⟨_ | e, s2⟩
    · have hs := memRepoArchive_sessions aid true s.clock { s with clock := s.clock + 1 }
      rw [ha] at hs
      simp [accountService.Delete, invoke, memDeps, memTimeNow, ha, memSessionTerminate]
      simpa using congrArg (fun l => l.filter (fun x => !decide (x.1 = sid))) hs
    · simp [accountService.Delete, invoke, memDeps, memTimeNow, ha] at hok
  rotate_left
  · intro σ d w aid sid hok
    rcases hn : d.timeNow w.st with ⟨n, s1⟩
    rcases ha : d.repoArchive aid true n s1 with ⟨_ | e, s2⟩
    · rcases ht : d.sessionTerminate sid s2 with ⟨_ | e, s3⟩
      · simp [accountService.Delete, invoke, hn, ha, ht, callsSince]
      · simp [accountService.Delete, invoke, hn, ha, ht, callsSince]
    · simp [accountService.Delete, invoke, hn, ha] at hok
  · intro ttl s aid sid x hx hne
    rcases hmem ttl s aid sid with h | h
    · rw [h]; exact hx
    · rw [h]
      simp [List.mem_filter, hx, hne]

/-- Witness for C14 as amended, on the in-memory collaborators: `alice` is deleted
from her session `sid-1`; the session manager is called once, for `sid-1`, and her
other session `sid-2` remains. -/
theorem Delete_terminates_current_session_only_witness :
    (accountService.Delete (memDeps 50) "id:a@x.com" "sid-1" { st := sessionsState }).1 = none
      ∧ callsSince { st := sessionsState }
          (accountService.Delete (memDeps 50) "id:a@x.com" "sid-1"
            { st := sessionsState }).2 =
          [.timeNow, .repoArchive "id:a@x.com" true 150, .sessionTerminate "sid-1"]
      ∧ ("sid-2", "id:a@x.com") ∈
          (accountService.Delete (memDeps 50) "id:a@x.com" "sid-1"
            { st := sessionsState }).2.st.sessions :=
  ⟨rfl,
    Delete_terminates_current_session_only.1 MemState (memDeps 50) { st := sessionsState }
      "id:a@x.com" "sid-1" rfl,
    Delete_terminates_current_session_only.2.2 50 sessionsState "id:a@x.com" "sid-1"
      ("sid-2", "id:a@x.com") (by decide) (by decide)⟩

/-- Counterexample to C14 as stated: `alice` has the sessions `sid-1` and `sid-2`;
`Delete` of her account from `sid-1` succeeds, and afterwards her account is
archived while her session `sid-2` is still there. -/
theorem Delete_terminates_current_session_only_counterexample :
    (accountService.Delete (memDeps 50) "id:a@x.com" "sid-1" { st := sessionsState }).1 = none
      ∧ (accountService.Delete (memDeps 50) "id:a@x.com" "sid-1"
          { st := sessionsState }).2.st.accounts.all (fun a => a.Archived) = true
      ∧ (accountService.Delete (memDeps 50) "id:a@x.com" "sid-1"
          { st := sessionsState }).2.st.sessions =
          [("sid-2", "id:a@x.com"), ("sid-3", "id:c@x.com")] := by
  decide

/-! ### `NewSession` -/

theorem Error.Is_self (e : Error) : e.Is e = true := by
  cases e <;> simp [Error.Is]

/-- C15, as the code has it: when `netip.ParseAddr` rejects the ip, `NewSession`
returns no session and the parser's error wrapped under the context
`netip.ParseAddr`, without any collaborator call, so before a session id is
requested.  `NewSession` puts no error kind of its own into that failure: the
errors that `errors.Is` finds in it are the wrapper itself and those it finds in
the parser's error, so the failure is a sentinel of any name only when the
parser's error already is.  When the parser accepts the ip, `NewSession` goes on
to request the session id, and it returns a session whenever the issuer gives
one. -/
theorem NewSession_address_check (netipParseAddr : String → Option Error) (d : Deps σ)
    (w : World σ) (aid ua ip : String) (expiration : Duration) :
    (∀ e, netipParseAddr ip = some e →
        NewSession netipParseAddr d aid ua ip expiration w =
          (.error (.wrap "netip.ParseAddr" e), w)
        ∧ (∀ k, failsWith (errorOf (NewSession netipParseAddr d aid ua ip expiration w).1) k =
            (decide (Error.wrap "netip.ParseAddr" e = k) || e.Is k))
        ∧ (∀ name, failsWith (errorOf (NewSession netipParseAddr d aid ua ip expiration w).1)
            (.sentinel name) = e.Is (.sentinel name))
        ∧ callsSince w (NewSession netipParseAddr d aid ua ip expiration w).2 = [])
      ∧ (netipParseAddr ip = none →
          (callsSince w (NewSession netipParseAddr d aid ua ip expiration w).2).head? =
              some (.newUnique 64)
            ∧ ∀ sid, (d.newUnique 64 w.st).1 = .ok sid →
                ∃ sess, (NewSession netipParseAddr d aid ua ip expiration w).1 = .ok sess) := by
  constructor
  · intro e he
    have hrun : NewSession netipParseAddr d aid ua ip expiration w =
        (.error (.wrap "netip.ParseAddr" e), w) := by
      simp [NewSession, he]
    refine ⟨hrun, ?_, ?_, ?_⟩
    · intro k
      rw [hrun]
      simp [errorOf, failsWith, Error.Is]
    · intro name
      rw [hrun]
      simp [errorOf, failsWith, Error.Is]
    · rw [hrun]
      simp [callsSince]
  · intro hok
    rcases hn : d.newUnique 64 w.st with ⟨e | sid, s1⟩
    · simp [NewSession, hok, invoke, hn, callsSince]
    · simp [NewSession, hok, invoke, hn, callsSince]

/-- Witness for C15 with the dotted-quad stand-in for `netip.ParseAddr`:
`not-an-ip` is rejected before any call with the parser's error wrapped, which is
not the sentinel `ErrSessionDeviceMismatch`; `10.0.0.1` passes the check and a
session is returned. -/
theorem NewSession_address_check_witness :
    NewSession memParseAddr (memDeps 50) "id:a@x.com" "agent" "not-an-ip" (30 * Second)
        { st := demoState } =
        (.error (.wrap "netip.ParseAddr" (.sentinel "netip: unable to parse IP")),
          { st := demoState })
      ∧ failsWith (errorOf (NewSession memParseAddr (memDeps 50) "id:a@x.com" "agent"
          "not-an-ip" (30 * Second) { st := demoState }).1)
          (.sentinel "domain.ErrSessionDeviceMismatch") = false
      ∧ callsSince { st := demoState }
          (NewSession memParseAddr (memDeps 50) "id:a@x.com" "agent" "not-an-ip"
            (30 * Second) { st := demoState }).2 = []
      ∧ ∃ sess, (NewSession memParseAddr (memDeps 50) "id:a@x.com" "agent" "10.0.0.1"
          (30 * Second) { st := demoState }).1 = .ok sess :=
  ⟨((NewSession_address_check memParseAddr (memDeps 50) { st := demoState } "id:a@x.com"
      "agent" "not-an-ip" (30 * Second)).1 (.sentinel "netip: unable to parse IP")
      (by decide)).1,
    ((NewSession_address_check memParseAddr (memDeps 50) { st := demoState } "id:a@x.com"
      "agent" "not-an-ip" (30 * Second)).1 (.sentinel "netip: unable to parse IP")
      (by decide)).2.2.1 "domain.ErrSessionDeviceMismatch",
    ((NewSession_address_check memParseAddr (memDeps 50) { st := demoState } "id:a@x.com"
      "agent" "not-an-ip" (30 * Second)).1 (.sentinel "netip: unable to parse IP")
      (by decide)).2.2.2,
    ((NewSession_address_check memParseAddr (memDeps 50) { st := demoState } "id:a@x.com"
      "agent" "10.0.0.1" (30 * Second)).2 (by decide)).2 "tok-2" rfl⟩

/-- Counterexample to C15 as stated: for the ip `not-an-ip`, which the parser
rejects, `NewSession` fails with the parser's own error inside one layer of
context.  `errors.Is` finds in it neither one of the error values that
`session.go` declares nor one of the enumerated domain kinds: the sources declare
no error for an invalid address. -/
theorem NewSession_address_check_counterexample :
    memParseAddr "not-an-ip" = some (.sentinel "netip: unable to parse IP")
      ∧ errorOf (NewSession memParseAddr (memDeps 50) "id:a@x.com" "agent" "not-an-ip"
          (30 * Second) { st := demoState }).1 =
          some (.wrap "netip.ParseAddr" (.sentinel "netip: unable to parse IP"))
      ∧ [ErrSessionCannotBeTerminated, ErrSessionContextNotFound,
          ErrSessionDeviceMismatch].all (fun k =>
          !failsWith (errorOf (NewSession memParseAddr (memDeps 50) "id:a@x.com" "agent"
            "not-an-ip" (30 * Second) { st := demoState }).1) k) = true
      ∧ enumeratedKinds.all (fun k =>
          !failsWith (errorOf (NewSession memParseAddr (memDeps 50) "id:a@x.com" "agent"
            "not-an-ip" (30 * Second) { st := demoState }).1) k) = true := by
  decide


/-- C16: for an ip the parser accepts and a ttl of `k` whole seconds, when the
issuer gives the id, `NewSession` returns a session whose `AccountId`, `UserAgent`
and `IP` are the arguments, whose `Id` is the string the issuer returned to the one
request of length 64, whose `MaxAge` is `k`, whose `CreatedAt` is the single clock
reading of the call, and whose `ExpiresAt` is the Unix seconds of that reading
plus the ttl, which equals the Unix seconds of `CreatedAt` plus `MaxAge`. -/
theorem NewSession_fields (netipParseAddr : String → Option Error) (d : Deps σ)
    (w : World σ) (aid ua ip sid : String) (k : Int) (n : Time) (s1 s2 : σ)
    (hvalid : netipParseAddr ip = none)
    (hnew : d.newUnique 64 w.st = (.ok sid, s1))
    (hnow : d.timeNow s1 = (n, s2)) :
    ∃ sess, (NewSession netipParseAddr d aid ua ip (k * Second) w).1 = .ok sess
      ∧ sess.AccountId = aid ∧ sess.UserAgent = ua ∧ sess.IP = ip ∧ sess.Id = sid
      ∧ sess.MaxAge = k
      ∧ sess.CreatedAt = n
      ∧ sess.ExpiresAt = Time.Unix (Time.Add n (k * Second))
      ∧ sess.ExpiresAt = Time.Unix sess.CreatedAt + sess.MaxAge
      ∧ callsSince w (NewSession netipParseAddr d aid ua ip (k * Second) w).2 =
          [.newUnique 64, .timeNow] := by
  have hmax : Duration.intSeconds (k * Second) = k :=
    Int.mul_tdiv_cancel k (by decide)
  have hexp : Time.Unix (Time.Add n (k * Second)) = Time.Unix n + k :=
    Int.add_mul_ediv_right n k (by decide)
  refine ⟨{ Id := sid, AccountId := aid, UserAgent := ua, IP := ip,
            MaxAge := Duration.intSeconds (k * Second),
            ExpiresAt := Time.Unix (Time.Add n (k * Second)),
            CreatedAt := n }, ?_, rfl, rfl, rfl, rfl, hmax, rfl, rfl, ?_, ?_⟩
  · simp [NewSession, hvalid, invoke, hnew, hnow]
  · show Time.Unix (Time.Add n (k * Second)) = Time.Unix n + Duration.intSeconds (k * Second)
    rw [hmax, hexp]
  · simp [NewSession, hvalid, invoke, hnew, hnow, callsSince]

/-- Witness for C16 on the in-memory collaborators: at clock reading 150 ns a ttl of
30 seconds gives `MaxAge` 30 and `ExpiresAt` 30. -/
theorem NewSession_fields_witness :
    memParseAddr "10.0.0.1" = none
      ∧ ∃ sess, (NewSession memParseAddr (memDeps 50) "id:a@x.com" "agent" "10.0.0.1"
          (30 * Second) { st := demoState }).1 = .ok sess
        ∧ sess.Id = "tok-2" ∧ sess.MaxAge = 30 ∧ sess.CreatedAt = 150 ∧ sess.ExpiresAt = 30 :=
  have key := NewSession_fields memParseAddr (memDeps 50) { st := demoState } "id:a@x.com"
    "agent" "10.0.0.1" "tok-2" 30 150 { demoState with uniques := ["tok-3"] }
    { demoState with uniques := ["tok-3"], clock := 151 } (by decide) rfl rfl
  ⟨by decide, key.choose, key.choose_spec.1, key.choose_spec.2.2.2.2.1,
    key.choose_spec.2.2.2.2.2.1, key.choose_spec.2.2.2.2.2.2.1,
    key.choose_spec.2.2.2.2.2.2.2.1.trans (by decide)⟩

/-! ### Where the errors of the operations come from -/

theorem find?_unique {α : Type} (q : α → Bool) (l : List α) (a : α)
    (ha : a ∈ l) (hq : q a = true) (huniq : ∀ b ∈ l, q b = true → b = a) :
    l.find? q = some a := by
  induction l with
  | nil => cases ha
  | cons x xs ih =>
    cases hx : q x
    · have hne : x ≠ a := by
        intro h
        rw [h, hq] at hx
        cases hx
      have ha2 : a ∈ xs := by
        rcases List.mem_cons.mp ha with h | h
        · exact absurd h.symm hne
        · exact h
      simp only [List.find?, hx]
      exact ih ha2 (fun b hb => huniq b (List.mem_cons_of_mem _ hb))
    · have hxa : x = a := huniq x (List.mem_cons_self _ _) hx
      simp only [List.find?, hx]
      rw [hxa]

/-- A lookup of the in-memory store by a key that identifies the stored account
`a`: it finds `a` exactly when `a` is not archived, and finds nothing when `a` is
archived. -/
theorem lookup_stored (s : MemState) (a : Account) (p : Account → Bool)
    (ha : a ∈ s.accounts) (hp : p a = true)
    (huniq : ∀ b ∈ s.accounts, p b = true → b = a) :
    (s.lookup p = some a ↔ a.Archived = false)
      ∧ (a.Archived = true → s.lookup p = none) := by
  constructor
  · constructor
    · intro h
      have := List.find?_some h
      simpa [hp] using this
    · intro harch
      exact find?_unique _ _ a ha (by simp [hp, harch])
        (fun b hb hqb => huniq b hb (by
          simp only [Bool.and_eq_true] at hqb
          exact hqb.1))
  · intro harch
    unfold MemState.lookup
    rw [List.find?_eq_none]
    intro b hb hqb
    simp only [Bool.and_eq_true] at hqb
    have hba := huniq b hb hqb.1
    subst hba
    simp [harch] at hqb

/-- A lookup of the in-memory store by a key that no stored account has. -/
theorem lookup_absent (s : MemState) (p : Account → Bool)
    (h : ∀ b ∈ s.accounts, p b = false) : s.lookup p = none := by
  unfold MemState.lookup
  rw [List.find?_eq_none]
  intro b hb hqb
  simp [h b hb] at hqb

theorem memRepoFindById_ok (x : String) (s : MemState) (a : Account) :
    ((memRepoFindById x s).1 = .ok a ↔ s.lookup (fun b => b.Id = x) = some a)
      ∧ (s.lookup (fun b => b.Id = x) = none → (memRepoFindById x s).1 = .error ErrNotFound) := by
  unfold memRepoFindById
  cases s.lookup (fun b => b.Id = x) <;> simp

theorem memRepoFindByEmail_ok (x : String) (s : MemState) (a : Account) :
    ((memRepoFindByEmail x s).1 = .ok a ↔ s.lookup (fun b => b.Email = x) = some a)
      ∧ (s.lookup (fun b => b.Email = x) = none →
          (memRepoFindByEmail x s).1 = .error ErrNotFound) := by
  unfold memRepoFindByEmail
  cases s.lookup (fun b => b.Email = x) <;> simp

theorem memRepoFindByUsername_ok (x : String) (s : MemState) (a : Account) :
    ((memRepoFindByUsername x s).1 = .ok a ↔ s.lookup (fun b => b.Username = x) = some a)
      ∧ (s.lookup (fun b => b.Username = x) = none →
          (memRepoFindByUsername x s).1 = .error ErrNotFound) := by
  unfold memRepoFindByUsername
  cases s.lookup (fun b => b.Username = x) <;> simp

/-- C18.  On the in-memory store, whose ids, emails and nicknames each identify one
account: the lookups by id, by email and by nickname return a stored account, the
very record that is stored, exactly when it is not archived; for an archived
account, and for an id, email or nickname that no stored account has, each lookup
fails with `ErrNotFound`.  For every store, `GetById`, `GetByEmail` and
`GetByUsername` make the one lookup and return the account the store returned, or
the store's error wrapped. -/
theorem lookups_exclude_archived :
    (∀ (s : MemState) (a : Account), s.keysUnique → a ∈ s.accounts →
        ((memRepoFindById a.Id s).1 = .ok a ↔ a.Archived = false)
        ∧ ((memRepoFindByEmail a.Email s).1 = .ok a ↔ a.Archived = false)
        ∧ ((memRepoFindByUsername a.Username s).1 = .ok a ↔ a.Archived = false)
        ∧ (a.Archived = true →
            (memRepoFindById a.Id s).1 = .error ErrNotFound
            ∧ (memRepoFindByEmail a.Email s).1 = .error ErrNotFound
            ∧ (memRepoFindByUsername a.Username s).1 = .error ErrNotFound))
    ∧ (∀ (s : MemState) (x : String),
        ((∀ b ∈ s.accounts, b.Id ≠ x) → (memRepoFindById x s).1 = .error ErrNotFound)
        ∧ ((∀ b ∈ s.accounts, b.Email ≠ x) → (memRepoFindByEmail x s).1 = .error ErrNotFound)
        ∧ ((∀ b ∈ s.accounts, b.Username ≠ x) →
            (memRepoFindByUsername x s).1 = .error ErrNotFound))
    ∧ (∀ (σ : Type) (d : Deps σ) (w : World σ) (x : String),
        (callsSince w (accountService.GetById d x w).2 = [.repoFindById x]
          ∧ (∀ a, (d.repoFindById x w.st).1 = .ok a →
              (accountService.GetById d x w).1 = .ok a)
          ∧ (∀ e, (d.repoFindById x w.st).1 = .error e →
              (accountService.GetById d x w).1 =
                .error (.wrap "accountService - GetByID - s.repo.FindByID" e)))
        ∧ (callsSince w (accountService.GetByEmail d x w).2 = [.repoFindByEmail x]
          ∧ (∀ a, (d.repoFindByEmail x w.st).1 = .ok a →
              (accountService.GetByEmail d x w).1 = .ok a)
          ∧ (∀ e, (d.repoFindByEmail x w.st).1 = .error e →
              (accountService.GetByEmail d x w).1 =
                .error (.wrap "accountService - GetByEmail - s.repo.FindByEmail" e)))
        ∧ (callsSince w (accountService.GetByUsername d x w).2 = [.repoFindByUsername x]
          ∧ (∀ a, (d.repoFindByUsername x w.st).1 = .ok a →
              (accountService.GetByUsername d x w).1 = .ok a)
          ∧ (∀ e, (d.repoFindByUsername x w.st).1 = .error e →
              (accountService.GetByUsername d x w).1 =
                .error (.wrap "accountService - GetByUsername - s.repo.FindByUsername" e)))) := by
  refine ⟨?_, ?_, ?_⟩
  · intro s a hu ha
    have hid := lookup_stored s a (fun b => b.Id = a.Id) ha (by simp)
      (fun b hb hq => hu b hb a ha (Or.inl (by simpa using hq)))
    have hem := lookup_stored s a (fun b => b.Email = a.Email) ha (by simp)
      (fun b hb hq => hu b hb a ha (Or.inr (Or.inl (by simpa using hq))))
    have hun := lookup_stored s a (fun b => b.Username = a.Username) ha (by simp)
      (fun b hb hq => hu b hb a ha (Or.inr (Or.inr (by simpa using hq))))
    refine ⟨(memRepoFindById_ok _ s a).1.trans hid.1,
      (memRepoFindByEmail_ok _ s a).1.trans hem.1,
      (memRepoFindByUsername_ok _ s a).1.trans hun.1, ?_⟩
    intro harch
    exact ⟨(memRepoFindById_ok _ s a).2 (hid.2 harch),
      (memRepoFindByEmail_ok _ s a).2 (hem.2 harch),
      (memRepoFindByUsername_ok _ s a).2 (hun.2 harch)⟩
  · intro s x
    refine ⟨?_, ?_, ?_⟩
    · intro h
      exact (memRepoFindById_ok x s {}).2
        (lookup_absent s _ (fun b hb => by simpa using h b hb))
    · intro h
      exact (memRepoFindByEmail_ok x s {}).2
        (lookup_absent s _ (fun b hb => by simpa using h b hb))
    · intro h
      exact (memRepoFindByUsername_ok x s {}).2
        (lookup_absent s _ (fun b hb => by simpa using h b hb))
  · intro σ d w x
    refine ⟨?_, ?_, ?_⟩
    · rcases hf : d.repoFindById x w.st with ⟨e | a, s1⟩ <;>
        simp [accountService.GetById, invoke, hf, callsSince]
    · rcases hf : d.repoFindByEmail x w.st with ⟨e | a, s1⟩ <;>
        simp [accountService.GetByEmail, invoke, hf, callsSince]
    · rcases hf : d.repoFindByUsername x w.st with ⟨e | a, s1⟩ <;>
        simp [accountService.GetByUsername, invoke, hf, callsSince]

/-- Witness for C18 on the in-memory store with the live `alice` and the archived
`carol`: `alice` is found by id, email and nickname; `carol` and unknown keys are
not found; `GetByEmail` returns the store's error wrapped. -/
theorem lookups_exclude_archived_witness :
    archiveState.keysUnique
      ∧ (memRepoFindById "id:a@x.com" archiveState).1 =
          .ok { Id := "id:a@x.com", Email := "a@x.com", Username := "alice",
                PasswordHash := "hash(old)", VerificationCode := "code-1" }
      ∧ (memRepoFindByEmail "c@x.com" archiveState).1 = .error ErrNotFound
      ∧ (memRepoFindByUsername "carol" archiveState).1 = .error ErrNotFound
      ∧ (memRepoFindById "id:nobody" archiveState).1 = .error ErrNotFound
      ∧ (accountService.GetByEmail (memDeps 50) "c@x.com" { st := archiveState }).1 =
          .error (.wrap "accountService - GetByEmail - s.repo.FindByEmail" ErrNotFound) :=
  have hu : archiveState.keysUnique := by
    unfold MemState.keysUnique
    decide
  ⟨hu,
    (lookups_exclude_archived.1 archiveState
      { Id := "id:a@x.com", Email := "a@x.com", Username := "alice",
        PasswordHash := "hash(old)", VerificationCode := "code-1" } hu (by decide)).1.mpr rfl,
    ((lookups_exclude_archived.1 archiveState
      { Id := "id:c@x.com", Email := "c@x.com", Username := "carol",
        PasswordHash := "hash(c)", VerificationCode := "code-3",
        Verified := true, Archived := true } hu (by decide)).2.2.2 rfl).2.1,
    ((lookups_exclude_archived.1 archiveState
      { Id := "id:c@x.com", Email := "c@x.com", Username := "carol",
        PasswordHash := "hash(c)", VerificationCode := "code-3",
        Verified := true, Archived := true } hu (by decide)).2.2.2 rfl).2.2,
    (lookups_exclude_archived.2.1 archiveState "id:nobody").1 (by decide),
    (lookups_exclude_archived.2.2 MemState (memDeps 50) { st := archiveState }
      "c@x.com").2.1.2.2 ErrNotFound rfl⟩

/-! ### `UpdatePasswordRequest.Validate` -/

theorem matchItems_nil (cs : List Char) : matchItems [] cs = true ↔ cs = [] := by
  cases cs <;> simp [matchItems]

theorem matchItems_lit (c : Char) (rest : List RegexItem) (cs : List Char) :
    matchItems (.lit c :: rest) cs = true ↔ ∃ r, cs = c :: r ∧ matchItems rest r = true := by
  cases cs with
  | nil => simp [matchItems]
  | cons x xs =>
    simp only [matchItems, Bool.and_eq_true, decide_eq_true_eq, List.cons.injEq]
    constructor
    · rintro ⟨hx, hm⟩
      exact ⟨xs, ⟨hx, rfl⟩, hm⟩
    · rintro ⟨r, ⟨hx, hr⟩, hm⟩
      exact ⟨hx, hr ▸ hm⟩

theorem matchItems_hex (n : Nat) (rest : List RegexItem) (cs : List Char) :
    matchItems (.hex n :: rest) cs = true ↔
      ∃ g r, cs = g ++ r ∧ g.length = n ∧ (∀ c ∈ g, isHexDigit c = true)
        ∧ matchItems rest r = true := by
  simp only [matchItems, Bool.and_eq_true, decide_eq_true_eq, List.all_eq_true]
  constructor
  · rintro ⟨⟨hlen, hall⟩, hm⟩
    exact ⟨cs.take n, cs.drop n, (List.take_append_drop n cs).symm, hlen, hall, hm⟩
  · rintro ⟨g, r, hcs, hlen, hall, hm⟩
    subst hcs
    have ht : (g ++ r).take n = g := by
      rw [← hlen]
      exact List.take_left' rfl
    have hd : (g ++ r).drop n = r := by
      rw [← hlen]
      exact List.drop_left' rfl
    rw [ht, hd]
    exact ⟨⟨hlen, hall⟩, hm⟩

/-- The embedded pattern matches exactly the strings of the 8-4-4-4-12 shape. -/
theorem uuidPattern_iff (s : String) :
    matchItems _password_service_uuidPattern s.toList = true ↔ isUUIDShape s := by
  unfold _password_service_uuidPattern isUUIDShape
  simp only [matchItems_hex, matchItems_lit, matchItems_nil]
  constructor
  · rintro ⟨g1, r1, h1, l1, a1, r2, rfl, g2, r3, h2, l2, a2, r4, rfl, g3, r5, h3, l3, a3,
      r6, rfl, g4, r7, h4, l4, a4, r8, rfl, g5, r9, h5, l5, a5, rfl⟩
    subst h2 h3 h4 h5
    exact ⟨g1, g2, g3, g4, g5, by simpa using h1, l1, l2, l3, l4, l5, a1, a2, a3, a4, a5⟩
  · rintro ⟨g1, g2, g3, g4, g5, h, l1, l2, l3, l4, l5, a1, a2, a3, a4, a5⟩
    exact ⟨g1, _, h, l1, a1, _, rfl, g2, _, rfl, l2, a2, _, rfl, g3, _, rfl, l3, a3,
      _, rfl, g4, _, rfl, l4, a4, _, rfl, g5, [], by simp, l5, a5, rfl⟩

/-- C20: for every non-nil `UpdatePasswordRequest`, `Validate` returns nil exactly
when the account id has the 8-4-4-4-12 hexadecimal UUID shape (equivalently, when it
matches the pattern), the old password has at most 64 runes and the new password
has between 8 and 64 runes.  The lengths are rune counts: a new password of 33
two-byte characters, 66 bytes long, is accepted. -/
theorem UpdatePasswordRequest_Validate_nil_iff (m : UpdatePasswordRequest) :
    (UpdatePasswordRequest.Validate (some m) = none ↔
        isUUIDShape m.AccountId ∧ RuneCountInString m.OldPassword ≤ 64
          ∧ 8 ≤ RuneCountInString m.NewPassword ∧ RuneCountInString m.NewPassword ≤ 64)
      ∧ (isUUIDShape m.AccountId ↔
          matchItems _password_service_uuidPattern m.AccountId.toList = true)
      ∧ (twoBytePassword.utf8ByteSize = 66 ∧ RuneCountInString twoBytePassword = 33
          ∧ UpdatePasswordRequest.Validate
              (some { m with AccountId := "0eafd279-aa51-46e0-a1e2-3d63c1f6063e",
                             OldPassword := twoBytePassword,
                             NewPassword := twoBytePassword }) = none) := by
  refine ⟨?_, (uuidPattern_iff m.AccountId).symm, by decide, by decide, by decide⟩
  rw [← uuidPattern_iff]
  simp only [UpdatePasswordRequest.Validate, UpdatePasswordRequest.validate,
    UpdatePasswordRequest._validateUuid]
  generalize matchItems _password_service_uuidPattern m.AccountId.toList = b
  generalize RuneCountInString m.OldPassword = o
  generalize RuneCountInString m.NewPassword = nw
  cases b
  · simp
  · by_cases hold : 64 < o
    · simp [hold]
    · by_cases hnew : nw < 8 ∨ 64 < nw
      · simp [hold, hnew]
        omega
      · simp [hold, hnew]
        omega

/-! ### `UpdatePasswordRequest.Validate` and `ValidateAll` -/

/-- C21: for the nil message both `Validate` and `ValidateAll` return nil; for
every other `UpdatePasswordRequest`, `Validate` returns nil exactly when
`ValidateAll` does; `ValidateAll` returns, when some rule is violated, the
`MultiError` list of all violated rules, one entry per field in the order
`AccountId`, `OldPassword`, `NewPassword` (so at most three); and the error
`Validate` returns is the first entry of that list. -/
theorem UpdatePasswordRequest_Validate_ValidateAll (m : UpdatePasswordRequest) :
    (UpdatePasswordRequest.Validate none = none ∧ UpdatePasswordRequest.ValidateAll none = none)
      ∧ (UpdatePasswordRequest.Validate (some m) = none ↔
          UpdatePasswordRequest.ValidateAll (some m) = none)
      ∧ UpdatePasswordRequest.ValidateAll (some m) =
          (if UpdatePasswordRequest.violatedRules m = [] then none
            else some (.multiError (UpdatePasswordRequest.violatedRules m)))
      ∧ UpdatePasswordRequest.Validate (some m) =
          (UpdatePasswordRequest.violatedRules m).head?.map
            UpdatePasswordRequestError.validationError
      ∧ (UpdatePasswordRequest.violatedRules m).length ≤ 3
      ∧ ((UpdatePasswordRequest.violatedRules m).map (fun e => e.field)).Sublist
          ["AccountId", "OldPassword", "NewPassword"] := by
  refine ⟨⟨rfl, rfl⟩, ?_⟩
  simp only [UpdatePasswordRequest.Validate, UpdatePasswordRequest.ValidateAll,
    UpdatePasswordRequest.validate, UpdatePasswordRequest._validateUuid,
    UpdatePasswordRequest.violatedRules]
  generalize matchItems _password_service_uuidPattern m.AccountId.toList = b
  generalize RuneCountInString m.OldPassword = o
  generalize RuneCountInString m.NewPassword = nw
  cases b
  · by_cases hold : 64 < o
    · by_cases hnew : nw < 8 ∨ 64 < nw
      · have hnew2 : ¬ (8 ≤ nw ∧ nw ≤ 64) := by omega
        have hold2 : ¬ (o ≤ 64) := by omega
        simp [hold, hnew, hnew2, hold2]
      · have hnew2 : 8 ≤ nw ∧ nw ≤ 64 := by omega
        have hold2 : ¬ (o ≤ 64) := by omega
        simp [hold, hnew, hnew2, hold2]
    · by_cases hnew : nw < 8 ∨ 64 < nw
      · have hnew2 : ¬ (8 ≤ nw ∧ nw ≤ 64) := by omega
        have hold2 : o ≤ 64 := by omega
        simp [hold, hnew, hnew2, hold2]
      · have hnew2 : 8 ≤ nw ∧ nw ≤ 64 := by omega
        have hold2 : o ≤ 64 := by omega
        simp [hold, hnew, hnew2, hold2]
  · by_cases hold : 64 < o
    · by_cases hnew : nw < 8 ∨ 64 < nw
      · have hnew2 : ¬ (8 ≤ nw ∧ nw ≤ 64) := by omega
        have hold2 : ¬ (o ≤ 64) := by omega
        simp [hold, hnew, hnew2, hold2]
      · have hnew2 : 8 ≤ nw ∧ nw ≤ 64 := by omega
        have hold2 : ¬ (o ≤ 64) := by omega
        simp [hold, hnew, hnew2, hold2]
    · by_cases hnew : nw < 8 ∨ 64 < nw
      · have hnew2 : ¬ (8 ≤ nw ∧ nw ≤ 64) := by omega
        have hold2 : o ≤ 64 := by omega
        simp [hold, hnew, hnew2, hold2]
      · have hnew2 : 8 ≤ nw ∧ nw ≤ 64 := by omega
        have hold2 : o ≤ 64 := by omega
        simp [hold, hnew, hnew2, hold2]

/-! ### The `CreateAccount` handler -/

/-- C22: when the request's `Validate` fails, the handler answers with an
`InvalidArgument` error around the validation error and does not call the
service.  Otherwise it calls `Create` once with the request's email, username and
password: a failure that `errors.Is` `ErrAccountAlreadyExist` is answered with an
`AlreadyExists` error whose underlying error is `ErrAccountAlreadyExist` itself,
without the context around it; every other failure is answered with an
`Internal` error around the service's error; on success the response carries the
account's id, email, username and verified flag, and both its creation time and
its update time are the timestamp of the account's `CreatedAt`. -/
theorem CreateAccount_responses (s : server σ) (r : CreateAccountRequest)
    (w : HandlerWorld σ) :
    (∀ verr, s.msgValidate r = some verr →
        server.CreateAccount s r w =
          (.error { code := .CodeInvalidArgument, err := verr }, w))
      ∧ (s.msgValidate r = none →
          (server.CreateAccount s r w).2.created =
              w.created ++ [(r.Email, r.Username, r.Password)]
            ∧ (server.CreateAccount s r w).2.st =
                (s.serviceCreate r.Email r.Username r.Password w.st).2
            ∧ (∀ err, (s.serviceCreate r.Email r.Username r.Password w.st).1 = .error err →
                err.Is ErrAccountAlreadyExist = true →
                (server.CreateAccount s r w).1 =
                  .error { code := .CodeAlreadyExists, err := ErrAccountAlreadyExist })
            ∧ (∀ err, (s.serviceCreate r.Email r.Username r.Password w.st).1 = .error err →
                err.Is ErrAccountAlreadyExist = false →
                (server.CreateAccount s r w).1 =
                  .error { code := .CodeInternal, err := err })
            ∧ (∀ a, (s.serviceCreate r.Email r.Username r.Password w.st).1 = .ok a →
                (server.CreateAccount s r w).1 =
                  .ok { Account :=
                    { Id := a.ID, Email := a.Email, Username := a.Username,
                      EmailVerified := a.EmailVerified,
                      CreationTime := timestamppb.New a.CreatedAt,
                      UpdateTime := timestamppb.New a.CreatedAt } })) := by
  constructor
  · intro verr hv
    simp [server.CreateAccount, hv]
  · intro hv
    rcases hc : s.serviceCreate r.Email r.Username r.Password w.st with ⟨err | a, st1⟩
    · cases hdup : err.Is ErrAccountAlreadyExist
      · refine ⟨?_, ?_, ?_, ?_, ?_⟩
        · simp [server.CreateAccount, hv, hc, hdup]
        · simp [server.CreateAccount, hv, hc, hdup]
        · intro err2 he hd
          have hee : err = err2 := Except.error.inj he
          subst hee
          rw [hdup] at hd
          cases hd
        · intro err2 he _
          have hee : err = err2 := Except.error.inj he
          subst hee
          simp [server.CreateAccount, hv, hc, hdup]
        · intro a he
          cases he
      · refine ⟨?_, ?_, ?_, ?_, ?_⟩
        · simp [server.CreateAccount, hv, hc, hdup]
        · simp [server.CreateAccount, hv, hc, hdup]
        · intro err2 he _
          simp [server.CreateAccount, hv, hc, hdup]
        · intro err2 he hd
          have hee : err = err2 := Except.error.inj he
          subst hee
          rw [hdup] at hd
          cases hd
        · intro a he
          cases he
    · refine ⟨?_, ?_, ?_, ?_, ?_⟩
      · simp [server.CreateAccount, hv, hc]
      · simp [server.CreateAccount, hv, hc]
      · intro err he
        cases he
      · intro err he
        cases he
      · intro a2 he
        have hee : a = a2 := Except.ok.inj he
        subst hee
        simp [server.CreateAccount, hv, hc]

/-- Witness for C22 on the stand-in collaborators: a request without an at sign is
answered `InvalidArgument` with no service call; an email already taken is
answered `AlreadyExists` with the bare sentinel; a hasher failure is answered
`Internal`; a fresh email is answered with the created account and one timestamp
for both times. -/
theorem CreateAccount_responses_witness :
    server.CreateAccount demoServer { Email := "bad", Username := "bob", Password := "pw" }
        { st := ["a@x.com"] } =
        (.error { code := .CodeInvalidArgument,
                  err := .sentinel "invalid CreateAccountRequest.Email" },
          { st := ["a@x.com"] })
      ∧ (server.CreateAccount demoServer
          { Email := "a@x.com", Username := "bob", Password := "pw" }
          { st := ["a@x.com"] }).1 =
          .error { code := .CodeAlreadyExists, err := ErrAccountAlreadyExist }
      ∧ (server.CreateAccount demoServer
          { Email := "b@x.com", Username := "", Password := "pw" }
          { st := ["a@x.com"] }).1 =
          .error { code := .CodeInternal,
                   err := .wrap "accountService - Create" (.sentinel "argon2id: failure") }
      ∧ (server.CreateAccount demoServer
          { Email := "b@x.com", Username := "bob", Password := "pw" }
          { st := ["a@x.com"] }).1 =
          .ok { Account :=
            { Id := "id:b@x.com", Email := "b@x.com", Username := "bob",
              EmailVerified := false,
              CreationTime := { Seconds := 1700000000, Nanos := 500000000 },
              UpdateTime := { Seconds := 1700000000, Nanos := 500000000 } } } :=
  ⟨(CreateAccount_responses demoServer { Email := "bad", Username := "bob", Password := "pw" }
      { st := ["a@x.com"] }).1 _ (by decide),
    ((CreateAccount_responses demoServer
      { Email := "a@x.com", Username := "bob", Password := "pw" }
      { st := ["a@x.com"] }).2 (by decide)).2.2.1 _ rfl (by decide),
    ((CreateAccount_responses demoServer
      { Email := "b@x.com", Username := "", Password := "pw" }
      { st := ["a@x.com"] }).2 (by decide)).2.2.2.1 _ rfl (by decide),
    ((CreateAccount_responses demoServer
      { Email := "b@x.com", Username := "bob", Password := "pw" }
      { st := ["a@x.com"] }).2 (by decide)).2.2.2.2 _ rfl⟩

/-! ### `RequestPasswordReset` after a failed send -/

/-- What a successful insert of the in-memory store did: the email belongs to a
live account and the token was appended for it. -/
theorem memRepoInsertPasswordResetToken_ok (email token : String) (s s3 : MemState)
    (h : memRepoInsertPasswordResetToken email token s = (none, s3)) :
    ∃ a, s.lookup (fun a => a.Email = email) = some a
      ∧ s3 = { s with passwordTokens := s.passwordTokens ++
          [{ Token := token, AccountId := a.Id, CreatedAt := s.clock }] } := by
  unfold memRepoInsertPasswordResetToken at h
  cases hl : s.lookup (fun a => a.Email = email) with
  | none => simp [hl] at h
  | some a =>
    simp only [hl] at h
    split at h
    · simp at h
    · simp only [Prod.mk.injEq, true_and] at h
      exact ⟨a, rfl, h.symm⟩

/-- After a successful insert the in-memory store rejects every further insert for
the same email with `ErrPasswordTokenAlreadyExist` and stays as it is. -/
theorem memRepoInsertPasswordResetToken_again (email token token2 : String)
    (s s3 : MemState)
    (h : memRepoInsertPasswordResetToken email token s = (none, s3)) :
    memRepoInsertPasswordResetToken email token2 s3 =
      (some ErrPasswordTokenAlreadyExist, s3) := by
  obtain ⟨a, hl, hs3⟩ := memRepoInsertPasswordResetToken_ok email token s s3 h
  have hl3 : s3.lookup (fun a => a.Email = email) = some a := by
    rw [hs3]
    exact hl
  unfold memRepoInsertPasswordResetToken
  rw [hl3]
  have hany : s3.passwordTokens.any (fun t => decide (t.AccountId = a.Id)) = true := by
    rw [hs3]
    simp
  simp [hany]

/-- C23: when the insert of the reset token succeeds and the send of the reset
email fails, `RequestPasswordReset` returns the send error wrapped, and the calls
it made are the resolution of the login, the token request, the insert and the
send: the insert is the only store write, nothing undoes it, and the call ends in
the state the mailer left.  On the in-memory collaborators the inserted token is
then still stored, and every further insert for the same email is rejected with
`ErrPasswordTokenAlreadyExist`. -/
theorem RequestPasswordReset_no_compensation :
    (∀ (σ : Type) (d : Deps σ) (w w1 : World σ) (login email t : String) (s2 s3 s4 : σ)
        (e : Error),
        accountService.RequestPasswordReset.resolve d login w = (.ok email, w1) →
        d.newUnique passwordResetTokenLength w1.st = (.ok t, s2) →
        d.repoInsertPasswordResetToken email t s2 = (none, s3) →
        d.sendAccountPasswordResetMail email t s3 = (some e, s4) →
        (accountService.RequestPasswordReset d login w).1 =
            some (.wrap
              "accountService - RequestPasswordReset - s.email.SendAccountPasswordResetMail" e)
          ∧ callsSince w (accountService.RequestPasswordReset d login w).2 =
              resolveCalls d login ++
                [.newUnique 64, .repoInsertPasswordResetToken email t,
                  .sendAccountPasswordResetMail email t]
          ∧ (callsSince w (accountService.RequestPasswordReset d login w).2).filter
              Call.isStoreWrite = [.repoInsertPasswordResetToken email t]
          ∧ (accountService.RequestPasswordReset d login w).2.st = s4)
    ∧ (∀ (ttl : Duration) (s : MemState) (w1 : World MemState) (login email t : String)
        (rest : List String) (s3 : MemState),
        accountService.RequestPasswordReset.resolve (memDeps ttl) login { st := s } =
          (.ok email, w1) →
        w1.st.uniques = t :: rest →
        memRepoInsertPasswordResetToken email t { w1.st with uniques := rest } = (none, s3) →
        s3.mailerDown = true →
        (accountService.RequestPasswordReset (memDeps ttl) login { st := s }).1 =
            some (.wrap
              "accountService - RequestPasswordReset - s.email.SendAccountPasswordResetMail"
              (.sentinel "smtp: delivery failed"))
          ∧ (accountService.RequestPasswordReset (memDeps ttl) login { st := s }).2.st = s3
          ∧ (∃ tok ∈ s3.passwordTokens, tok.Token = t)
          ∧ ∀ t2, memRepoInsertPasswordResetToken email t2 s3 =
              (some ErrPasswordTokenAlreadyExist, s3)) := by
  constructor
  · intro σ d w w1 login email t s2 s3 s4 e hres hnew hins hsend
    have hrun := RequestPasswordReset_run d w w1 login email t s2 s3 s4 (some e)
      hres hnew hins hsend
    have htr := (resolve_ok_trace d login email w w1 hres).1
    have hcalls : callsSince w (accountService.RequestPasswordReset d login w).2 =
        resolveCalls d login ++
          [.newUnique 64, .repoInsertPasswordResetToken email t,
            .sendAccountPasswordResetMail email t] := by
      rw [hrun]
      simp [callsSince, htr]
    refine ⟨by rw [hrun]; rfl, hcalls, ?_, by rw [hrun]⟩
    rw [hcalls]
    unfold resolveCalls
    split <;> simp [Call.isStoreWrite]
  · intro ttl s w1 login email t rest s3 hres hsupply hins hdown
    have hnew : (memDeps ttl).newUnique passwordResetTokenLength w1.st =
        (.ok t, { w1.st with uniques := rest }) := by
      simp [memDeps, memNewUnique, hsupply]
    have hsend : (memDeps ttl).sendAccountPasswordResetMail email t s3 =
        (some (.sentinel "smtp: delivery failed"), s3) := by
      simp [memDeps, memSend, hdown]
    have hrun := RequestPasswordReset_run (memDeps ttl) { st := s } w1 login email t
      { w1.st with uniques := rest } s3 s3 (some (.sentinel "smtp: delivery failed"))
      hres hnew hins hsend
    obtain ⟨a, _, hs3⟩ := memRepoInsertPasswordResetToken_ok email t _ s3 hins
    refine ⟨by rw [hrun]; rfl, by rw [hrun], ?_, ?_⟩
    · refine ⟨{ Token := t, AccountId := a.Id, CreatedAt := w1.st.clock }, ?_, rfl⟩
      rw [hs3]
      simp
    · intro t2
      exact memRepoInsertPasswordResetToken_again email t t2 _ s3 hins

/-- Witness for C23 on the in-memory collaborators with a failing mailer: the
request for `a@x.com` inserts `tok-2` and fails at the send; the token is still
stored afterwards, and a second request fails with `ErrPasswordTokenAlreadyExist`. -/
theorem RequestPasswordReset_no_compensation_witness :
    (accountService.RequestPasswordReset (memDeps 50) "a@x.com" { st := mailerDownState }).1 =
        some (.wrap
          "accountService - RequestPasswordReset - s.email.SendAccountPasswordResetMail"
          (.sentinel "smtp: delivery failed"))
      ∧ (accountService.RequestPasswordReset (memDeps 50) "a@x.com"
          { st := mailerDownState }).2.st.passwordTokens =
          [{ Token := "tok-2", AccountId := "id:a@x.com", CreatedAt := 150 }]
      ∧ (callsSince { st := mailerDownState }
          (accountService.RequestPasswordReset (memDeps 50) "a@x.com"
            { st := mailerDownState }).2).filter Call.isStoreWrite =
          [.repoInsertPasswordResetToken "a@x.com" "tok-2"]
      ∧ failsWith (accountService.RequestPasswordReset (memDeps 50) "a@x.com"
          (accountService.RequestPasswordReset (memDeps 50) "a@x.com"
            { st := mailerDownState }).2).1 ErrPasswordTokenAlreadyExist = true :=
  have key := RequestPasswordReset_no_compensation.2 50 mailerDownState
    { st := mailerDownState } "a@x.com" "a@x.com" "tok-2" ["tok-3"]
    { mailerDownState with
        uniques := ["tok-3"],
        passwordTokens := [{ Token := "tok-2", AccountId := "id:a@x.com", CreatedAt := 150 }] }
    rfl rfl rfl rfl
  ⟨key.1, (congrArg MemState.passwordTokens key.2.1).trans rfl,
    (RequestPasswordReset_no_compensation.1 MemState (memDeps 50) { st := mailerDownState }
      { st := mailerDownState } "a@x.com" "a@x.com" "tok-2"
      { mailerDownState with uniques := ["tok-3"] }
      { mailerDownState with
          uniques := ["tok-3"],
          passwordTokens :=
            [{ Token := "tok-2", AccountId := "id:a@x.com", CreatedAt := 150 }] }
      { mailerDownState with
          uniques := ["tok-3"],
          passwordTokens :=
            [{ Token := "tok-2", AccountId := "id:a@x.com", CreatedAt := 150 }] }
      (.sentinel "smtp: delivery failed") rfl rfl rfl rfl).2.2.1,
    by decide⟩

/-! ### `ResetPasswordRequest` and `SetPasswordRequest` -/

/-- C24: `Validate` and `ValidateAll` of `ResetPasswordRequest` and of
`SetPasswordRequest` return nil for every message, the nil message included,
whatever the token and the password are.  In particular a password whose rune
count is below 8 or above 64 passes `SetPasswordRequest.Validate`, while the same
password as `NewPassword` of an `UpdatePasswordRequest` is rejected by
`UpdatePasswordRequest.Validate`, whatever the other fields of that request. -/
theorem reset_and_set_requests_always_valid :
    (∀ m : Option ResetPasswordRequest,
        ResetPasswordRequest.Validate m = none ∧ ResetPasswordRequest.ValidateAll m = none)
      ∧ (∀ m : Option SetPasswordRequest,
        SetPasswordRequest.Validate m = none ∧ SetPasswordRequest.ValidateAll m = none)
      ∧ (∀ (token password accountId oldPassword : String),
        (RuneCountInString password < 8 ∨ 64 < RuneCountInString password) →
        SetPasswordRequest.Validate (some { Token := token, Password := password }) = none
          ∧ UpdatePasswordRequest.Validate
              (some { AccountId := accountId, OldPassword := oldPassword,
                      NewPassword := password }) ≠ none) := by
  refine ⟨?_, ?_, ?_⟩
  · intro m
    cases m <;>
      simp [ResetPasswordRequest.Validate, ResetPasswordRequest.ValidateAll,
        ResetPasswordRequest.validate]
  · intro m
    cases m <;>
      simp [SetPasswordRequest.Validate, SetPasswordRequest.ValidateAll,
        SetPasswordRequest.validate]
  · intro token password accountId oldPassword hlen
    refine ⟨by simp [SetPasswordRequest.Validate, SetPasswordRequest.validate], ?_⟩
    simp only [UpdatePasswordRequest.Validate, UpdatePasswordRequest.validate,
      UpdatePasswordRequest._validateUuid]
    generalize matchItems _password_service_uuidPattern accountId.toList = b
    generalize RuneCountInString oldPassword = o
    generalize RuneCountInString password = nw at hlen
    cases b
    · simp
    · by_cases hold : 64 < o
      · simp [hold]
      · simp [hold, hlen]

/-- Witness for C24: the empty password with the empty token, and a password of
70 runes, pass `SetPasswordRequest.Validate`; as `NewPassword` of an
`UpdatePasswordRequest` with a valid account id they are rejected. -/
theorem reset_and_set_requests_always_valid_witness :
    SetPasswordRequest.Validate (some { Token := "", Password := "" }) = none
      ∧ UpdatePasswordRequest.Validate
          (some { AccountId := "0eafd279-aa51-46e0-a1e2-3d63c1f6063e", OldPassword := "",
                  NewPassword := "" }) ≠ none
      ∧ SetPasswordRequest.Validate
          (some { Token := "tok-1", Password := String.mk (List.replicate 70 'x') }) = none
      ∧ UpdatePasswordRequest.Validate
          (some { AccountId := "0eafd279-aa51-46e0-a1e2-3d63c1f6063e", OldPassword := "",
                  NewPassword := String.mk (List.replicate 70 'x') }) ≠ none :=
  ⟨(reset_and_set_requests_always_valid.2.2 "" "" "0eafd279-aa51-46e0-a1e2-3d63c1f6063e" ""
      (by decide)).1,
    (reset_and_set_requests_always_valid.2.2 "" "" "0eafd279-aa51-46e0-a1e2-3d63c1f6063e" ""
      (by decide)).2,
    (reset_and_set_requests_always_valid.2.2 "tok-1" (String.mk (List.replicate 70 'x'))
      "0eafd279-aa51-46e0-a1e2-3d63c1f6063e" "" (by decide)).1,
    (reset_and_set_requests_always_valid.2.2 "tok-1" (String.mk (List.replicate 70 'x'))
      "0eafd279-aa51-46e0-a1e2-3d63c1f6063e" "" (by decide)).2⟩

/-! ### `answer.NewListParams` -/

/-- C25: `NewListParams` copies `lastId` and the filter; the limit is the given one
when it lies between 1 and 100 and `pagination.DefaultLimit` when it is 0 or above
100; so with a default between 1 and 100 the resulting limit is never 0 and never
above 100. -/
theorem NewListParams_limit (DefaultLimit lastId limit : Nat) (f : answer.Filter) :
    (answer.NewListParams DefaultLimit lastId limit f).Pagination.LastId = lastId
      ∧ (answer.NewListParams DefaultLimit lastId limit f).Filter = f
      ∧ (1 ≤ limit ∧ limit ≤ 100 →
          (answer.NewListParams DefaultLimit lastId limit f).Pagination.Limit = limit)
      ∧ (limit = 0 ∨ 100 < limit →
          (answer.NewListParams DefaultLimit lastId limit f).Pagination.Limit = DefaultLimit)
      ∧ (1 ≤ DefaultLimit ∧ DefaultLimit ≤ 100 →
          (answer.NewListParams DefaultLimit lastId limit f).Pagination.Limit ≠ 0
            ∧ (answer.NewListParams DefaultLimit lastId limit f).Pagination.Limit ≤ 100) := by
  refine ⟨rfl, rfl, ?_, ?_, ?_⟩
  · intro h
    have hn : ¬ (limit = 0 ∨ limit > 100) := by omega
    simp [answer.NewListParams, answer.maxLimit, hn]
  · intro h
    have hn : limit = 0 ∨ limit > 100 := by omega
    simp [answer.NewListParams, answer.maxLimit, hn]
  · intro hd
    by_cases hn : limit = 0 ∨ limit > 100
    · simp only [answer.NewListParams, answer.maxLimit, hn, if_true]
      omega
    · simp only [answer.NewListParams, answer.maxLimit, hn, if_false]
      omega

/-- Witness for C25 with a default limit of 20: the limits 0 and 101 become 20, the
limits 1 and 100 are kept. -/
theorem NewListParams_limit_witness :
    (answer.NewListParams 20 7 0 { Text := "q" }).Pagination.Limit = 20
      ∧ (answer.NewListParams 20 7 101 { Text := "q" }).Pagination.Limit = 20
      ∧ (answer.NewListParams 20 7 1 { Text := "q" }).Pagination.Limit = 1
      ∧ (answer.NewListParams 20 7 100 { Text := "q" }).Pagination.Limit = 100
      ∧ (answer.NewListParams 20 7 0 { Text := "q" }).Pagination.Limit ≠ 0 :=
  ⟨(NewListParams_limit 20 7 0 { Text := "q" }).2.2.2.1 (by decide),
    (NewListParams_limit 20 7 101 { Text := "q" }).2.2.2.1 (by decide),
    (NewListParams_limit 20 7 1 { Text := "q" }).2.2.1 (by decide),
    (NewListParams_limit 20 7 100 { Text := "q" }).2.2.1 (by decide),
    ((NewListParams_limit 20 7 0 { Text := "q" }).2.2.2.2 (by decide)).1⟩

/-! ### `Letter.Validate` -/

/-- C26: `Letter.Validate` returns nil exactly when `To` is not empty and parses
as a mail address, `Subject` is not empty and `Message` is not empty.  The checks
run in that order: an empty `To` gives `ErrEmailEmptyTo` whatever the other fields
are; a `To` that does not parse gives the parser's error; a valid `To` with an
empty `Subject` gives `ErrEmailEmptySubject`, also when `Message` is empty; the
message check is reached, and `ErrEmailEmptyMessage` returned by it, only when
`To` and `Subject` are both valid (with a parser that never returns this sentinel of
the `email` package, `ErrEmailEmptyMessage` is then returned in no other case).  The
letter is the same after the call. -/
theorem Letter_Validate_ordered (mailParseAddress : String → Option Error) (l : Letter) :
    ((Letter.Validate mailParseAddress l).1 = none ↔
        l.To ≠ "" ∧ mailParseAddress l.To = none ∧ l.Subject ≠ "" ∧ l.Message ≠ "")
      ∧ (l.To = "" → (Letter.Validate mailParseAddress l).1 = some ErrEmailEmptyTo)
      ∧ (∀ e, l.To ≠ "" → mailParseAddress l.To = some e →
          (Letter.Validate mailParseAddress l).1 = some e)
      ∧ (l.To ≠ "" → mailParseAddress l.To = none → l.Subject = "" →
          (Letter.Validate mailParseAddress l).1 = some ErrEmailEmptySubject)
      ∧ (l.To ≠ "" → mailParseAddress l.To = none → l.Subject ≠ "" → l.Message = "" →
          (Letter.Validate mailParseAddress l).1 = some ErrEmailEmptyMessage)
      ∧ ((∀ x, mailParseAddress x ≠ some ErrEmailEmptyMessage) →
          (Letter.Validate mailParseAddress l).1 = some ErrEmailEmptyMessage →
          l.To ≠ "" ∧ mailParseAddress l.To = none ∧ l.Subject ≠ "" ∧ l.Message = "")
      ∧ (Letter.Validate mailParseAddress l).2 = l := by
  refine ⟨?_, ?_, ?_, ?_, ?_, ?_, ?_⟩
  · unfold Letter.Validate
    by_cases hto : l.To = ""
    · simp [hto]
    · cases hp : mailParseAddress l.To with
      | some e => simp [hto]
      | none =>
        by_cases hs : l.Subject = ""
        · simp [hto, hs]
        · by_cases hm : l.Message = ""
          · simp [hto, hs, hm]
          · simp [hto, hs, hm]
  · intro hto
    simp [Letter.Validate, hto]
  · intro e hto hp
    simp [Letter.Validate, hto, hp]
  · intro hto hp hs
    simp [Letter.Validate, hto, hp, hs]
  · intro hto hp hs hm
    simp [Letter.Validate, hto, hp, hs, hm]
  · intro hne hres
    unfold Letter.Validate at hres
    by_cases hto : l.To = ""
    · simp [hto, ErrEmailEmptyTo, ErrEmailEmptyMessage] at hres
    · cases hp : mailParseAddress l.To with
      | some e =>
        simp [hto, hp] at hres
        exact absurd (hres ▸ hp) (hne l.To)
      | none =>
        by_cases hs : l.Subject = ""
        · simp [hto, hp, hs, ErrEmailEmptySubject, ErrEmailEmptyMessage] at hres
        · by_cases hm : l.Message = ""
          · exact ⟨hto, rfl, hs, hm⟩
          · simp [hto, hp, hs, hm] at hres
  · unfold Letter.Validate
    by_cases hto : l.To = ""
    · simp [hto]
    · cases hp : mailParseAddress l.To with
      | some e => simp [hto]
      | none =>
        by_cases hs : l.Subject = ""
        · simp [hto, hs]
        · by_cases hm : l.Message = ""
          · simp [hto, hs, hm]
          · simp [hto, hs, hm]

/-- Witness for C26 with the at-sign stand-in for `mail.ParseAddress`: a complete
letter is valid; the empty `To` gives `ErrEmailEmptyTo` although subject and message
are empty too; a valid `To` with empty subject and message gives
`ErrEmailEmptySubject`; only the letter with valid `To` and subject and an empty
message gives `ErrEmailEmptyMessage`. -/
theorem Letter_Validate_ordered_witness :
    (Letter.Validate memMailParseAddress
        { To := "a@x.com", Subject := "Reset", Message := "hello" }).1 = none
      ∧ (Letter.Validate memMailParseAddress { To := "", Subject := "", Message := "" }).1 =
          some ErrEmailEmptyTo
      ∧ (Letter.Validate memMailParseAddress
          { To := "nobody", Subject := "Reset", Message := "hello" }).1 =
          some (.sentinel "mail: missing @ in address")
      ∧ (Letter.Validate memMailParseAddress
          { To := "a@x.com", Subject := "", Message := "" }).1 = some ErrEmailEmptySubject
      ∧ (Letter.Validate memMailParseAddress
          { To := "a@x.com", Subject := "Reset", Message := "" }).1 =
          some ErrEmailEmptyMessage :=
  ⟨(Letter_Validate_ordered memMailParseAddress
      { To := "a@x.com", Subject := "Reset", Message := "hello" }).1.mpr (by decide),
    (Letter_Validate_ordered memMailParseAddress
      { To := "", Subject := "", Message := "" }).2.1 rfl,
    (Letter_Validate_ordered memMailParseAddress
      { To := "nobody", Subject := "Reset", Message := "hello" }).2.2.1 _ (by decide)
      (by decide),
    (Letter_Validate_ordered memMailParseAddress
      { To := "a@x.com", Subject := "", Message := "" }).2.2.2.1 (by decide) (by decide) rfl,
    (Letter_Validate_ordered memMailParseAddress
      { To := "a@x.com", Subject := "Reset", Message := "" }).2.2.2.2.1 (by decide)
      (by decide) (by decide) rfl⟩

end Answersuck
